import Mathlib

/-!
Shallow embedding of the spreadsheet validation engine in
src/looperrorsolve.py (sheet validation with typed field checks, a tiered
link-reference cache, duplicate tracking and cooperative timeouts).

Conventions of the embedding:
* Python cell values become the inductive `CellValue`; Python floats are
  modelled as rationals (the cells the claims exercise are strings and ints).
* The backing store (frappe.db / frappe.get_all / frappe.get_meta) becomes an
  explicit `Store` record whose operations return `Except Unit`, so a raised
  exception in the source is an `Except.error` here; every `try/except` of the
  source becomes an explicit match on that result.
* The process-wide dictionaries `_link_cache` / `_link_cache_sizes` become the
  `Cache` record of association lists (later entries shadow earlier ones,
  mirroring dictionary update).
* The cooperative time checks become boolean schedules (`trips`), abstracting
  the elapsed-time comparisons of the source.
-/

namespace LoopValidate

/-- A single quote character, used to build the message strings of the source
without writing quote characters in literals. -/
def sq : String := String.singleton (Char.ofNat 39)

/-- str.strip() as a character-list computation (the byte-position based
core String.trim does not reduce in the kernel). -/
def sTrim (s : String) : String :=
  String.mk (((s.toList.dropWhile Char.isWhitespace).reverse.dropWhile
    Char.isWhitespace).reverse)

/-- str.lower() as a character-list computation. -/
def sLower (s : String) : String := String.mk (s.toList.map Char.toLower)

/-- Replace every occurrence of a character by a character list (covers the
single-character str.replace calls of the source). -/
def sReplaceChar (c : Char) (r : List Char) (s : String) : String :=
  String.mk ((s.toList.map (fun ch => if ch = c then r else [ch])).flatten)

/-- endswith as a character-list computation. -/
def sEndsWith (s t : String) : Bool := t.toList.isSuffixOf s.toList

/-- startswith as a character-list computation. -/
def sStartsWith (s t : String) : Bool := t.toList.isPrefixOf s.toList

/-- Whether one list occurs contiguously inside another. -/
def listInfix (needle : List Char) : List Char → Bool
  | [] => needle.isEmpty
  | c :: rest => needle.isPrefixOf (c :: rest) || listInfix needle rest

/-- Python substring containment: needle in hay. -/
def pyInStr (needle hay : String) : Bool := listInfix needle.toList hay.toList

/-- Python cell values as produced by openpyxl for one spreadsheet cell. -/
inductive CellValue where
  | none
  | str (s : String)
  | int (n : Int)
  | bool (b : Bool)
  | float (q : Rat)
  | date (y : Int) (m : Nat) (d : Nat)
  | datetime (y : Int) (mo : Nat) (d : Nat) (h : Nat) (mi : Nat) (sec : Nat)
  deriving DecidableEq, Repr

/-- Left-pad a numeral with zeros, for the date renderings of `pyStr`. -/
def padNum (width : Nat) (n : Nat) : String :=
  let s := toString n
  if s.length < width then String.mk (List.replicate (width - s.length) (Char.ofNat 48)) ++ s
  else s

/-- Python str() of a cell value.  Non-integral floats are rendered
approximately (no claim exercises their rendering); all other cases follow
CPython. -/
def pyStr : CellValue → String
  | CellValue.none => "None"
  | CellValue.str s => s
  | CellValue.int n => toString n
  | CellValue.bool b => if b then "True" else "False"
  | CellValue.float q =>
      if q.den = 1 then toString q.num ++ ".0" else toString q
  | CellValue.date y m d =>
      toString y ++ "-" ++ padNum 2 m ++ "-" ++ padNum 2 d
  | CellValue.datetime y mo d h mi sec =>
      toString y ++ "-" ++ padNum 2 mo ++ "-" ++ padNum 2 d ++ " " ++
        padNum 2 h ++ ":" ++ padNum 2 mi ++ ":" ++ padNum 2 sec

/-- Python truthiness of a cell value. -/
def truthy : CellValue → Bool
  | CellValue.none => false
  | CellValue.str s => s ≠ ""
  | CellValue.int n => n ≠ 0
  | CellValue.bool b => b
  | CellValue.float q => q ≠ 0
  | CellValue.date _ _ _ => true
  | CellValue.datetime _ _ _ _ _ _ => true

/-- The ERROR_CODE_LABELS table of the source. -/
def ERROR_CODE_LABELS : List (String × String) :=
  [("LINK_NOT_FOUND", "Data Not Found"),
   ("INVALID_YEAR_RANGE", "Invalid Year Range"),
   ("REQUIRED_FIELD_EMPTY", "Required Field Empty"),
   ("INVALID_INT", "Must Be a Number"),
   ("DUPLICATE_ROW", "Duplicate Row"),
   ("EMPTY_ROW", "Empty Row"),
   ("INVALID_FLOAT", "Must Be a Decimal Number"),
   ("INVALID_DATE", "Invalid Date"),
   ("INVALID_DATETIME", "Invalid Date/Time"),
   ("INVALID_YEAR", "Invalid Year Format"),
   ("INVALID_TEXT", "Invalid Text Format"),
   ("INVALID_SELECT", "Invalid Selection"),
   ("INVALID_LINK", "Invalid Link"),
   ("DUPLICATE_PRIMARY_KEY", "Duplicate ID"),
   ("DUPLICATE_UNIQUE", "Duplicate Value"),
   ("NO_FILE", "No File Uploaded"),
   ("INVALID_FILE_TYPE", "Invalid File Type (Use .xlsx)"),
   ("FILE_TOO_LARGE", "File Too Large"),
   ("PASSWORD_PROTECTED", "Password Protected File"),
   ("UNREADABLE_FILE", "Corrupted File"),
   ("SHEET_NOT_FOUND", "Worksheet Not Found"),
   ("NO_HEADER", "Header Row Missing"),
   ("EMPTY_HEADERS", "Empty Header Row"),
   ("DUPLICATE_HEADERS", "Duplicate Headers"),
   ("NO_DATA_ROWS", "No Data Rows"),
   ("MISSING_REQUIRED_COLUMNS", "Missing Required Columns"),
   ("DOCTYPE_NOT_FOUND", "DocType Not Found"),
   ("NO_PERMISSION", "No Permission"),
   ("DOCTYPE_ERROR", "DocType Error"),
   ("LINK_CONFIG_ERROR", "Configuration Error"),
   ("INVALID_LINK_TYPE", "Invalid Link Type"),
   ("LINK_DOCTYPE_NOT_FOUND", "Target Type Not Found"),
   ("LINK_PERMISSION_ERROR", "Permission Denied"),
   ("LINK_VALIDATION_ERROR", "Link Validation Error"),
   ("TIMEOUT_ERROR", "Processing Timeout")]

/-- First-match lookup in an association list (Python dict lookup; with the
shadowing update discipline used below, the first match is the live entry). -/
def alookup {α : Type} (l : List (String × α)) (k : String) : Option α :=
  (l.find? (fun p => p.1 == k)).map (fun p => p.2)

/-- Python str.title() on the alphabetic runs that matter here: a letter
starting an alphabetic run is uppercased, later letters lowercased. -/
def pyTitle (s : String) : String :=
  let step : (Bool × List Char) → Char → (Bool × List Char) :=
    fun acc ch =>
      if ch.isAlpha then
        (true, (if acc.1 then ch.toLower else ch.toUpper) :: acc.2)
      else
        (false, ch :: acc.2)
  String.mk ((s.toList.foldl step (false, [])).2.reverse)

/-- get_readable_error_code of the source. -/
def get_readable_error_code (code : String) : String :=
  match alookup ERROR_CODE_LABELS code with
  | some l => l
  | Option.none => sReplaceChar (Char.ofNat 95) [Char.ofNat 32] code

/-- get_formatted_error_type of the source. -/
def get_formatted_error_type (code : String) : String :=
  match alookup ERROR_CODE_LABELS code with
  | some l => l
  | Option.none => pyTitle (sReplaceChar (Char.ofNat 95) [Char.ofNat 32] code)

/-- Drop trailing characters satisfying a predicate. -/
def dropTrailing (p : Char → Bool) (s : String) : String :=
  String.mk (s.toList.reverse.dropWhile p).reverse

/-- clean_header of the source: strip, remove one trailing parenthetical
(the regex sub of a leftmost match of whitespace + first open paren through a
closing paren at the end), lowercase, remove spaces. -/
def clean_header (s : String) : String :=
  let t := sTrim s
  let base :=
    if sEndsWith t (")") && t.toList.contains (Char.ofNat 40) then
      dropTrailing (fun c => c.isWhitespace)
        (String.mk (t.toList.takeWhile (fun c => c ≠ Char.ofNat 40)))
    else t
  sReplaceChar (Char.ofNat 32) [] (sLower base)

/-- clean_header applied to an optional label (None becomes the empty
string, as in the source). -/
def clean_header_opt : Option String → String
  | Option.none => ""
  | some s => clean_header s

/-- Value of a digit list, most significant first. -/
def digitsVal (l : List Char) : Nat :=
  l.foldl (fun a ch => a * 10 + (ch.toNat - 48)) 0

/-- Python float(s) on an already stripped string: optional sign, decimal
digits with an optional point, optional exponent.  The inf/nan spellings and
underscore separators accepted by CPython are not modelled (no input of
interest uses them). -/
def pyParseFloat (s : String) : Option Rat :=
  let cs := s.toList
  let signAndRest : (Int × List Char) :=
    match cs with
    | c :: rest =>
        if c = Char.ofNat 45 then (-1, rest)
        else if c = Char.ofNat 43 then (1, rest) else (1, cs)
    | [] => (1, cs)
  let sign := signAndRest.1
  let cs1 := signAndRest.2
  let intPart := cs1.takeWhile Char.isDigit
  let rest1 := cs1.dropWhile Char.isDigit
  let fracAndRest : (List Char × List Char) :=
    match rest1 with
    | c :: rest =>
        if c = Char.ofNat 46 then (rest.takeWhile Char.isDigit, rest.dropWhile Char.isDigit)
        else ([], rest1)
    | [] => ([], rest1)
  let fracPart := fracAndRest.1
  let rest2 := fracAndRest.2
  if intPart.isEmpty && fracPart.isEmpty then Option.none
  else
    let mant : Rat := (sign * Int.ofNat (digitsVal (intPart ++ fracPart))) /
      ((10 : Rat) ^ fracPart.length)
    match rest2 with
    | [] => some mant
    | e :: rest3 =>
        if e = Char.ofNat 101 || e = Char.ofNat 69 then
          let esignAndRest : (Bool × List Char) :=
            match rest3 with
            | c :: r =>
                if c = Char.ofNat 45 then (true, r)
                else if c = Char.ofNat 43 then (false, r) else (false, rest3)
            | [] => (false, rest3)
          let eds := esignAndRest.2
          if eds.isEmpty || !(eds.all Char.isDigit) then Option.none
          else
            let ex := digitsVal eds
            some (if esignAndRest.1 then mant / ((10 : Rat) ^ ex) else mant * ((10 : Rat) ^ ex))
        else Option.none

/-- Days in a month of a given year (proleptic Gregorian), for the ISO date
validation performed by datetime.fromisoformat. -/
def daysInMonth (y : Int) (m : Nat) : Nat :=
  if m = 2 then
    if y % 4 = 0 && (y % 100 ≠ 0 || y % 400 = 0) then 29 else 28
  else if m = 4 || m = 6 || m = 9 || m = 11 then 30
  else 31

/-- The year of datetime.fromisoformat(s) when s parses as an ISO date,
optionally followed by a one-character separator and a valid HH:MM[:SS] time
(fractional seconds and offsets are not modelled; every failure is `none`,
matching the bare except of the source). -/
def parseIsoYear (s : String) : Option Int :=
  match s.toList with
  | y1 :: y2 :: y3 :: y4 :: d1 :: m1 :: m2 :: d2 :: dd1 :: dd2 :: rest =>
      if [y1, y2, y3, y4].all Char.isDigit && d1 = Char.ofNat 45 &&
         [m1, m2].all Char.isDigit && d2 = Char.ofNat 45 &&
         [dd1, dd2].all Char.isDigit then
        let y : Int := Int.ofNat (digitsVal [y1, y2, y3, y4])
        let mo := digitsVal [m1, m2]
        let dy := digitsVal [dd1, dd2]
        if 1 ≤ mo && mo ≤ 12 && 1 ≤ dy && dy ≤ daysInMonth y mo then
          match rest with
          | [] => some y
          | _ :: h1 :: h2 :: c1 :: mi1 :: mi2 :: rest2 =>
              if [h1, h2].all Char.isDigit && c1 = Char.ofNat 58 &&
                 [mi1, mi2].all Char.isDigit &&
                 digitsVal [h1, h2] < 24 && digitsVal [mi1, mi2] < 60 then
                match rest2 with
                | [] => some y
                | c2 :: s1 :: s2 :: [] =>
                    if c2 = Char.ofNat 58 && [s1, s2].all Char.isDigit &&
                       digitsVal [s1, s2] < 60 then some y else Option.none
                | _ => Option.none
              else Option.none
          | _ => Option.none
        else Option.none
      else Option.none
  | _ => Option.none

/-- Python int() truncation toward zero of a rational. -/
def ratTrunc (q : Rat) : Int := Int.tdiv q.num (Int.ofNat q.den)

/-- Whether a string consists of exactly four digits (the fullmatch of the
source on the stripped string). -/
def isFourDigits (s : String) : Bool :=
  s.length = 4 && s.toList.all Char.isDigit

/-- validate_year_value of the source.  date/datetime cells give their year,
numeric cells truncate, four-digit strings parse, everything else falls back
to datetime.fromisoformat of its str(). -/
def validate_year_value (v : CellValue) : Option Int :=
  match v with
  | CellValue.date y _ _ => some y
  | CellValue.datetime y _ _ _ _ _ => some y
  | CellValue.int n => some n
  | CellValue.bool b => some (if b then 1 else 0)
  | CellValue.float q => some (ratTrunc q)
  | CellValue.str s =>
      if isFourDigits (sTrim s) then some (Int.ofNat (digitsVal (sTrim s).toList))
      else parseIsoYear s
  | CellValue.none => parseIsoYear (pyStr CellValue.none)

/-- A DocField of the Frappe metadata (the attributes the source reads). -/
structure Field where
  label : Option String
  fieldname : Option String
  fieldtype : String
  reqd : Bool
  unique : Bool
  options : Option String
  deriving DecidableEq, Repr

/-- The backing store behind frappe: metadata, counts, id lists and
existence queries.  `Except.error` models a raised exception. -/
structure Store where
  docTypeExists : String → Except Unit Bool
  countRecords : String → Except Unit Nat
  listIds : String → Except Unit (List String)
  existsRec : String → String → Except Unit Bool
  getMeta : String → Except Unit (List Field)

/-- The process-wide dictionaries _link_cache and _link_cache_sizes.
Updates cons a new entry, shadowing any earlier entry for the same key. -/
structure Cache where
  linkCache : List (String × List String)
  linkSizes : List (String × Nat)
  deriving DecidableEq, Repr

/-- The empty process-wide cache. -/
def emptyCache : Cache := { linkCache := [], linkSizes := [] }

/-- Dictionary update (later entries shadow earlier ones under `alookup`). -/
def aput {α : Type} (l : List (String × α)) (k : String) (v : α) : List (String × α) :=
  (k, v) :: l

/-- LINK_CACHE_LIMIT of the source. -/
def LINK_CACHE_LIMIT : Nat := 5000

/-- SHEET_TIMEOUT of the source (seconds). -/
def SHEET_TIMEOUT : Nat := 60

/-- One iteration of the prefetch loop of prefetch_link_caches: count the
linked doctype, record its size, and materialize its id set unless it
exceeds the cache limit; any store exception leaves the work done so far. -/
def prefetchOne (s : Store) (c : Cache) (d : String) : Cache :=
  match s.countRecords d with
  | Except.error _ => c
  | Except.ok n =>
      let c1 : Cache := { c with linkSizes := aput c.linkSizes d n }
      if n > LINK_CACHE_LIMIT then c1
      else
        match s.listIds d with
        | Except.error _ => c1
        | Except.ok l => { c1 with linkCache := aput c1.linkCache d l }

/-- The link target doctypes of a field list: options of Link fields with a
truthy options string (the source collects them into a set; this list may
carry duplicates, and prefetching is idempotent per doctype). -/
def linkDoctypes (meta : List Field) : List String :=
  meta.filterMap (fun df =>
    if df.fieldtype == "Link" then
      match df.options with
      | some o => if o ≠ "" then some o else Option.none
      | Option.none => Option.none
    else Option.none)

/-- prefetch_link_caches of the source, over the Link fields of the given
metadata. -/
def prefetch_link_caches (s : Store) (meta : List Field) (c : Cache) : Cache :=
  (linkDoctypes meta).foldl (prefetchOne s) c

/-- link_exists of the source: False for falsy arguments, False when the
DocType itself is unknown or any query raises; large tables answer by a
direct existence query; small tables lazily materialize and then scan the
cached ids (case-insensitively unless case_sensitive). -/
def link_exists (s : Store) (d : String) (name : String) (cs : Bool) (c : Cache) :
    Bool × Cache :=
  if d = "" || name = "" then (false, c)
  else
    match s.docTypeExists d with
    | Except.error _ => (false, c)
    | Except.ok false => (false, c)
    | Except.ok true =>
        let isLarge : Bool :=
          match alookup c.linkSizes d with
          | some n => decide (n > LINK_CACHE_LIMIT)
          | Option.none => false
        if isLarge then
          match s.existsRec d (sTrim name) with
          | Except.error _ => (false, c)
          | Except.ok b => (b, c)
        else
          let scan : List String → Bool := fun cached =>
            if cs then cached.contains (sTrim name)
            else cached.any (fun x => sLower x == sLower (sTrim name))
          match alookup c.linkCache d with
          | some cached => (scan cached, c)
          | Option.none =>
              match s.countRecords d with
              | Except.error _ => (false, c)
              | Except.ok n =>
                  if n > LINK_CACHE_LIMIT then
                    let c1 : Cache := { c with linkSizes := aput c.linkSizes d n }
                    match s.existsRec d name with
                    | Except.error _ => (false, c1)
                    | Except.ok b => (b, c1)
                  else
                    match s.listIds d with
                    | Except.error _ => (false, c)
                    | Except.ok l =>
                        let c1 : Cache := { c with linkCache := aput c.linkCache d l }
                        (scan l, c1)


/-- The suggestion collection loop of get_link_suggestions: append every
cached name sharing a substring (in either direction, both lowercased) with
the candidate, stopping once maxS suggestions are collected. -/
def collectSuggestions (nameLower : String) (maxS : Nat) :
    List String → List String → List String
  | acc, [] => acc
  | acc, x :: xs =>
      if pyInStr nameLower (sLower x) || pyInStr (sLower x) nameLower then
        let acc1 := acc ++ [x]
        if acc1.length ≥ maxS then acc1
        else collectSuggestions nameLower maxS acc1 xs
      else collectSuggestions nameLower maxS acc xs

/-- get_link_suggestions of the source: lazily touch the cache via
link_exists when the doctype has no materialized entry, then collect up to
maxS substring matches from the materialized id set (none when the entry is
still missing). -/
def get_link_suggestions (s : Store) (d : String) (name : String) (maxS : Nat)
    (c : Cache) : List String × Cache :=
  let c1 :=
    if (alookup c.linkCache d).isNone then (link_exists s d "__init__" false c).2
    else c
  match alookup c1.linkCache d with
  | some cached => (collectSuggestions (sLower name) maxS [] cached, c1)
  | Option.none => ([], c1)

/-- A structured error produced by validate_datatypes (before translation to
the JSON shape of the sheet output). -/
structure DtypeError where
  row : Nat
  column : String
  code : String
  message : String
  suggestions : List String
  deriving DecidableEq, Repr

/-- Build a DtypeError record. -/
def mkDtype (rowIdx : Nat) (column : String) (code : String) (message : String)
    (sugg : List String) : DtypeError :=
  { row := rowIdx, column := column, code := code, message := message,
    suggestions := sugg }

/-- validate_link_field of the source: skip when link validation is disabled
or the value is falsy, configuration error without a target doctype, direct
existence query first (whose exception propagates), then a case-insensitive
scan of the materialized cache, then LINK_NOT_FOUND with suggestions. -/
def validate_link_field (s : Store) (df : Field) (value : CellValue)
    (label : String) (rowIdx : Nat) (skip : Bool) (c : Cache) :
    Except Unit (Option DtypeError × Cache) :=
  if skip || !(truthy value) then Except.ok (Option.none, c)
  else
    let target :=
      match df.options with
      | some o => if o = "" then Option.none else some o
      | Option.none => Option.none
    match target with
    | Option.none =>
        Except.ok (some (mkDtype rowIdx label ("LINK_CONFIG_ERROR")
          ("No target DocType") []), c)
    | some d =>
        let valueStr := sTrim (pyStr value)
        match s.existsRec d valueStr with
        | Except.error e => Except.error e
        | Except.ok true => Except.ok (Option.none, c)
        | Except.ok false =>
            let cachedHit :=
              match alookup c.linkCache d with
              | some existing =>
                  existing.any (fun v => sLower (sTrim v) == sLower valueStr)
              | Option.none => false
            if cachedHit then Except.ok (Option.none, c)
            else
              let sugRes := get_link_suggestions s d valueStr 3 c
              Except.ok (some (mkDtype rowIdx label ("LINK_NOT_FOUND")
                (label ++ ": " ++ sq ++ pyStr value ++ sq ++ " not found in " ++ d)
                sugRes.1), sugRes.2)

/-- Maximal runs of word characters (letters, digits, underscore), used for
the word-boundary regexes of build_field_map. -/
def wordTokensAux : List Char → List Char → List String
  | cur, [] => if cur.isEmpty then [] else [String.mk cur.reverse]
  | cur, ch :: rest =>
      if ch.isAlphanum || ch = Char.ofNat 95 then wordTokensAux (ch :: cur) rest
      else if cur.isEmpty then wordTokensAux [] rest
      else String.mk cur.reverse :: wordTokensAux [] rest

/-- The word tokens of a string. -/
def wordTokens (s : String) : List String := wordTokensAux [] s.toList

/-- Whether one of the given words occurs with word boundaries on both sides
(the \b-delimited alternation regexes of build_field_map). -/
def wordMatch (words : List String) (s : String) : Bool :=
  (wordTokens s).any (fun t => words.contains t)

/-- The dictionary header -> original header built as
clean_header(h) -> h by the source (later headers shadow earlier ones). -/
def headers_norm_map (headers : List String) : List (String × String) :=
  headers.foldl (fun m h => aput m (clean_header h) h) []

/-- The required columns computed by process_sheet_with_validation: required
non-break fields whose cleaned label (else cleaned fieldname) matches a
header. -/
def required_columns_of (meta : List Field) (headers : List String) : List String :=
  let hn := headers_norm_map headers
  meta.foldl (fun cols df =>
    if df.reqd && df.fieldtype != "Section Break" && df.fieldtype != "Column Break" &&
        df.fieldtype != "Tab Break" then
      match alookup hn (clean_header_opt df.label) with
      | some h => cols ++ [h]
      | Option.none =>
          match alookup hn (clean_header_opt df.fieldname) with
          | some h => cols ++ [h]
          | Option.none => cols
    else cols) []

/-- get_unique_columns of the source. -/
def get_unique_columns (meta : List Field) (headers : List String) : List String :=
  let hn := headers_norm_map headers
  meta.foldl (fun cols df =>
    if df.unique then
      match alookup hn (clean_header_opt df.label) with
      | some h => cols ++ [h]
      | Option.none =>
          match alookup hn (clean_header_opt df.fieldname) with
          | some h => cols ++ [h]
          | Option.none => cols
    else cols) []

/-- get_primary_key of the source: the header matching the field whose
fieldname is name (by its label, else by the literal header name). -/
def get_primary_key (meta : List Field) (headers : List String) : Option String :=
  let hn := headers_norm_map headers
  meta.foldl (fun acc df =>
    match acc with
    | some _ => acc
    | Option.none =>
        if df.fieldname == some "name" then
          match alookup hn (clean_header_opt df.label) with
          | some h => some h
          | Option.none => alookup hn "name"
        else Option.none) Option.none

/-- build_field_map of the source: map cleaned labels (overwriting) and
cleaned fieldnames (first wins) to their fields; when the metadata yields
nothing and headers exist, infer a field per header from its name. -/
def build_field_map (meta : List Field) (headers : List String) : List (String × Field) :=
  let primary := meta.foldl (fun fm df =>
    let fm1 :=
      match df.label with
      | some l => if l ≠ "" then aput fm (clean_header l) df else fm
      | Option.none => fm
    match df.fieldname with
    | some fn =>
        if fn ≠ "" && (alookup fm1 (clean_header fn)).isNone then
          aput fm1 (clean_header fn) df
        else fm1
    | Option.none => fm1) []
  if primary.isEmpty && !headers.isEmpty then
    headers.foldl (fun fm h =>
      let key := clean_header h
      let hl := sLower h
      let ft :=
        if key == "year" then "Int"
        else if pyInStr "date" hl then "Date"
        else if wordMatch ["financial", "budget", "amount", "cost", "price", "rate"] hl then
          (if pyInStr "rate" hl || pyInStr "price" hl || pyInStr "financial" hl then
            "Currency" else "Float")
        else if wordMatch ["count", "total", "value", "qty", "quantity", "ranking",
            "index", "strength", "position", "vacant", "ratio", "currency"] hl then
          (if pyInStr "&" hl || pyInStr "title" hl || pyInStr "case" hl ||
              pyInStr "name" hl then "Data" else "Float")
        else "Data"
      aput fm key { label := some h, fieldname := some key, fieldtype := ft,
                    reqd := false, unique := false, options := Option.none }) []
  else primary

/-- The optional_columns tuple of validate_datatypes. -/
def optionalColumns : List String :=
  ["id", "institute", "notes", "description", "brief", "details", "remarks", "comments"]

/-- One iteration of the cell loop of validate_datatypes: blank/placeholder
cells of non-optional columns give REQUIRED_FIELD_EMPTY; year-named fields
run the year check; Link fields delegate to validate_link_field (whose
direct-query exception propagates); Int/Check, Float/Currency/Percent, Date
and Datetime run their type checks; all else passes.  Returns the errors
this cell contributes. -/
def validateOneCell (s : Store) (skip : Bool) (todayYear : Int)
    (fieldMap : List (String × Field)) (rowIdx : Nat) (item : String × CellValue)
    (c : Cache) : Except Unit (List DtypeError × Cache) :=
  let label := item.1
  let value := item.2
  let key := clean_header label
  let isOptional := optionalColumns.contains key || sStartsWith (sLower label) ("id ")
  let strVal := if value = CellValue.none then "" else sTrim (pyStr value)
  if strVal == "" || strVal == "NA" || strVal == "N/A" || strVal == "na" ||
      strVal == "n/a" then
    Except.ok ((if isOptional then [] else [mkDtype rowIdx label ("REQUIRED_FIELD_EMPTY")
      ("Field " ++ sq ++ label ++ sq ++ " is empty") []]), c)
  else
    let isYearByName := pyInStr "year" (sLower label) && label.length < 15
    let dfOpt : Option Field :=
      match alookup fieldMap key with
      | some df => some df
      | Option.none =>
          if isYearByName then
            some { label := Option.none, fieldname := some "year", fieldtype := "Int",
                   reqd := false, unique := false, options := Option.none }
          else Option.none
    match dfOpt with
    | Option.none => Except.ok ([], c)
    | some df =>
        let ft := df.fieldtype
        let isYearField := key == "year" || sEndsWith key ("_year") ||
          (match df.fieldname with
           | some fn => fn == "year"
           | Option.none => false) || isYearByName
        let linkStep : List DtypeError → Except Unit (List DtypeError × Cache) :=
          fun errsY =>
            match validate_link_field s df value label rowIdx skip c with
            | Except.error e => Except.error e
            | Except.ok (Option.none, c1) => Except.ok (errsY, c1)
            | Except.ok (some le, c1) => Except.ok (errsY ++ [le], c1)
        if isYearField then
          match validate_year_value value with
          | Option.none =>
              Except.ok ([mkDtype rowIdx label ("INVALID_YEAR")
                ("Invalid year: " ++ pyStr value) []], c)
          | some y =>
              let errsY :=
                if 1900 ≤ y ∧ y ≤ todayYear + 1 then []
                else [mkDtype rowIdx label ("INVALID_YEAR_RANGE")
                  ("Year " ++ toString y ++ " out of allowed range 1900-" ++
                    toString (todayYear + 1)) []]
              if ft == "Link" then linkStep errsY
              else Except.ok (errsY, c)
        else if ft == "Link" then linkStep []
        else if ft == "Int" || ft == "Check" then
          let ok : Bool :=
            match value with
            | CellValue.int _ => true
            | CellValue.bool _ => true
            | CellValue.float q => q.den == 1
            | CellValue.str v =>
                (match pyParseFloat (sTrim v) with
                 | some q => q.den == 1
                 | Option.none => false)
            | _ => false
          Except.ok ((if ok then [] else [mkDtype rowIdx label ("INVALID_INT")
            (sq ++ pyStr value ++ sq ++ " is not a valid number") []]), c)
        else if ft == "Float" || ft == "Currency" || ft == "Percent" then
          let ok : Bool :=
            match value with
            | CellValue.int _ => true
            | CellValue.bool _ => true
            | CellValue.float _ => true
            | CellValue.str v => (pyParseFloat (sTrim v)).isSome
            | _ => false
          Except.ok ((if ok then [] else [mkDtype rowIdx label ("INVALID_FLOAT")
            (sq ++ pyStr value ++ sq ++ " is not a valid number") []]), c)
        else if ft == "Date" then
          let ok : Bool :=
            match value with
            | CellValue.date _ _ _ => true
            | CellValue.datetime _ _ _ _ _ _ => true
            | _ => false
          Except.ok ((if ok then [] else [mkDtype rowIdx label ("INVALID_DATE")
            ("Invalid date format") []]), c)
        else if ft == "Datetime" then
          let ok : Bool :=
            match value with
            | CellValue.datetime _ _ _ _ _ _ => true
            | _ => false
          Except.ok ((if ok then [] else [mkDtype rowIdx label ("INVALID_DATETIME")
            ("Invalid datetime format") []]), c)
        else Except.ok ([], c)

/-- validate_datatypes of the source: the cell loop, accumulating each
cell’s errors in row-dictionary order; an exception propagates (the source
lets it reach the caller of the row loop). -/
def validate_datatypes (s : Store) (skip : Bool) (todayYear : Int)
    (fieldMap : List (String × Field)) (rowIdx : Nat) :
    List (String × CellValue) → List DtypeError → Cache →
    Except Unit (List DtypeError × Cache)
  | [], errs, c => Except.ok (errs, c)
  | item :: rest, errs, c =>
      match validateOneCell s skip todayYear fieldMap rowIdx item c with
      | Except.error e => Except.error e
      | Except.ok (es, c1) =>
          validate_datatypes s skip todayYear fieldMap rowIdx rest (errs ++ es) c1

/-- One entry of the structured JSON error list (the suggestions key of the
source is present only when non-empty; here it is a list, empty meaning
absent). -/
structure JsonError where
  sheet : String
  row : Nat
  column : String
  code : String
  message : String
  value_entered : String
  error_type : String
  suggestions : List String
  deriving DecidableEq, Repr

/-- Build a JsonError record. -/
def mkJson (sheet : String) (rowIdx : Nat) (column : String) (code : String)
    (message : String) (valueEntered : String) (errorType : String)
    (sugg : List String) : JsonError :=
  { sheet := sheet, row := rowIdx, column := column, code := code,
    message := message, value_entered := valueEntered, error_type := errorType,
    suggestions := sugg }

/-- The per-sheet duplicate-tracking state: seen_rows, seen_primary and
seen_unique of process_sheet_with_validation. -/
structure RowState where
  seenRows : List (List String)
  seenPrimary : List String
  seenUnique : List (String × List String)
  deriving DecidableEq, Repr

/-- The initial duplicate-tracking state of a sheet. -/
def initRowState (uniqueCols : List String) : RowState :=
  { seenRows := [], seenPrimary := [],
    seenUnique := uniqueCols.map (fun col => (col, [])) }

/-- Whether a cell is one of the literal values None, empty, NA, N/A (the
membership test used by the required-field, duplicate-signature, primary-key
and unique-column checks; note: exact case, no stripping). -/
def isNaLiteral : CellValue → Bool
  | CellValue.none => true
  | CellValue.str s => s == "" || s == "NA" || s == "N/A"
  | _ => false

/-- Whether a cell counts as blank for the whole-row emptiness test: None,
or its str() strips to empty or a lower/upper NA placeholder. -/
def isPlaceholderCell (v : CellValue) : Bool :=
  match v with
  | CellValue.none => true
  | _ =>
      let t := sTrim (pyStr v)
      t == "" || t == "NA" || t == "N/A" || t == "na" || t == "n/a"

/-- The whole-row emptiness test of the source on a zipped row dictionary. -/
def isEmptyRowDict (rowDict : List (String × CellValue)) : Bool :=
  rowDict.all (fun p => isPlaceholderCell p.2)

/-- row_dict.get(col): the cell for a column, None when absent. -/
def cellAt (rowDict : List (String × CellValue)) (col : String) : CellValue :=
  match alookup rowDict col with
  | some v => v
  | Option.none => CellValue.none

/-- One component of the normalized whole-row duplicate signature: the
literal values None, empty, NA, N/A collapse to the empty string, everything
else is its str() verbatim. -/
def signatureCell (v : CellValue) : String :=
  if isNaLiteral v then "" else pyStr v

/-- The normalized whole-row duplicate signature (the row_values tuple). -/
def rowSignature (rowDict : List (String × CellValue)) : List String :=
  rowDict.map (fun p => signatureCell p.2)

/-- The EMPTY_ROW json entry. -/
def mkEmptyRowError (doctype : String) (rowIdx : Nat) : JsonError :=
  mkJson doctype rowIdx ("Entire Row") ("Empty Row") ("Row is completely empty")
    ("") ("Empty Row") []

/-- The REQUIRED_FIELD_EMPTY json entry of the required-columns pass. -/
def mkRequiredError (doctype : String) (rowIdx : Nat) (col : String) : JsonError :=
  mkJson doctype rowIdx col (get_readable_error_code ("REQUIRED_FIELD_EMPTY"))
    ("Required field " ++ sq ++ col ++ sq ++ " is empty") ("")
    (get_formatted_error_type ("REQUIRED_FIELD_EMPTY")) []

/-- The DUPLICATE_ROW json entry. -/
def mkDupRowError (doctype : String) (rowIdx : Nat) : JsonError :=
  mkJson doctype rowIdx ("Entire Row") (get_readable_error_code ("DUPLICATE_ROW"))
    ("This row is a duplicate of a previous row") ("Row Data")
    (get_formatted_error_type ("DUPLICATE_ROW")) []

/-- The DUPLICATE_PRIMARY_KEY json entry. -/
def mkDupPkError (doctype : String) (rowIdx : Nat) (pk : String) (pkVal : CellValue) :
    JsonError :=
  mkJson doctype rowIdx pk (get_readable_error_code ("DUPLICATE_PRIMARY_KEY"))
    (pk ++ ": Duplicate ID (" ++ pyStr pkVal ++ ")") (pyStr pkVal)
    (get_formatted_error_type ("DUPLICATE_PRIMARY_KEY")) []

/-- The DUPLICATE_UNIQUE json entry. -/
def mkDupUniqueError (doctype : String) (rowIdx : Nat) (col : String) (v : CellValue) :
    JsonError :=
  mkJson doctype rowIdx col (get_readable_error_code ("DUPLICATE_UNIQUE"))
    (col ++ ": Duplicate value (" ++ pyStr v ++ ")") (pyStr v)
    (get_formatted_error_type ("DUPLICATE_UNIQUE")) []

/-- Translation of a validate_datatypes error into the JSON shape, looking
the entered value back up in the row dictionary. -/
def jsonOfDtype (doctype : String) (rowDict : List (String × CellValue)) (rowIdx : Nat)
    (e : DtypeError) : JsonError :=
  let valEntered :=
    if e.column = "" then ""
    else
      match alookup rowDict e.column with
      | some v => if v = CellValue.none then "" else pyStr v
      | Option.none => ""
  mkJson doctype rowIdx e.column (get_readable_error_code e.code) e.message
    valEntered (get_formatted_error_type e.code) e.suggestions

/-- The primary-key duplicate check of the row loop: test membership of the
trimmed value before inserting it, flagging DUPLICATE_PRIMARY_KEY on a hit. -/
def pkPartF (doctype : String) (rowIdx : Nat) (rowDict : List (String × CellValue))
    (primaryKey : Option String) (seenPrimary : List String) :
    List JsonError × List String :=
  match primaryKey with
  | Option.none => ([], seenPrimary)
  | some pk =>
      let pkVal := cellAt rowDict pk
      if truthy pkVal && !(isNaLiteral pkVal) then
        let pkStr := sTrim (pyStr pkVal)
        ((if seenPrimary.contains pkStr then
            [mkDupPkError doctype rowIdx pk pkVal] else []),
         seenPrimary.insert pkStr)
      else ([], seenPrimary)

/-- One unique-column duplicate check of the row loop: test membership of
the trimmed value before inserting it, flagging DUPLICATE_UNIQUE on a hit. -/
def uniqStepF (doctype : String) (rowIdx : Nat) (rowDict : List (String × CellValue)) :
    (List JsonError × List (String × List String)) → String →
    (List JsonError × List (String × List String)) := fun acc col =>
  let v := cellAt rowDict col
  if truthy v && !(isNaLiteral v) then
    let vs := sTrim (pyStr v)
    let seenSet :=
      match alookup acc.2 col with
      | some l => l
      | Option.none => []
    let errsAdd :=
      if seenSet.contains vs then [mkDupUniqueError doctype rowIdx col v] else []
    (acc.1 ++ errsAdd, aput acc.2 col (seenSet.insert vs))
  else acc

/-- The per-row output: the json errors of the row and the short-error count
(the No. of Error cell; each short error is appended in lockstep with a json
entry in the source, so the count equals the number of json errors). -/
structure RowOut where
  errors : List JsonError
  shortCount : Nat
  deriving DecidableEq, Repr

/-- The body of the per-row loop of process_sheet_with_validation: the
whole-row emptiness check, the required-columns pass, validate_datatypes,
and the three duplicate checks (each testing membership before inserting). -/
def processRow (s : Store) (doctype : String) (headers : List String)
    (requiredCols : List String) (uniqueCols : List String)
    (primaryKey : Option String) (fieldMap : List (String × Field)) (skip : Bool)
    (todayYear : Int) (rowIdx : Nat) (row : List CellValue) (st : RowState)
    (c : Cache) : Except Unit (RowOut × RowState × Cache) :=
  let rowDict := headers.zip row
  if isEmptyRowDict rowDict then
    Except.ok ({ errors := [mkEmptyRowError doctype rowIdx], shortCount := 1 }, st, c)
  else
    let reqErrs := (requiredCols.filter (fun col => isNaLiteral (cellAt rowDict col))).map
      (mkRequiredError doctype rowIdx)
    match validate_datatypes s skip todayYear fieldMap rowIdx rowDict [] c with
    | Except.error e => Except.error e
    | Except.ok (dtErrs, c1) =>
        let dtJson := dtErrs.map (jsonOfDtype doctype rowDict rowIdx)
        let sigRow := rowSignature rowDict
        let dupFlag := !sigRow.isEmpty && st.seenRows.contains sigRow
        let dupJson := if dupFlag then [mkDupRowError doctype rowIdx] else []
        let seenRows1 := st.seenRows.insert sigRow
        let pkPart := pkPartF doctype rowIdx rowDict primaryKey st.seenPrimary
        let uniqPart := uniqueCols.foldl (uniqStepF doctype rowIdx rowDict)
          ([], st.seenUnique)
        let allErrs := reqErrs ++ dtJson ++ dupJson ++ pkPart.1 ++ uniqPart.1
        Except.ok ({ errors := allErrs, shortCount := allErrs.length },
          { seenRows := seenRows1, seenPrimary := pkPart.2, seenUnique := uniqPart.2 },
          c1)

/-- Outcome of the row loop: completed with all per-row outputs, stopped by
the cooperative timeout (ValidationTimeout), or stopped by an unexpected
exception (caught into a PROCESSING_ERROR sheet by the caller).  The partial
outputs are carried for specification purposes; the source discards them. -/
inductive RowsOut where
  | done (outs : List RowOut)
  | timedOut (outs : List RowOut)
  | failed (outs : List RowOut)
  deriving DecidableEq, Repr

/-- The row loop of process_sheet_with_validation: row indices start at 2,
and every row whose index is a multiple of 100 first checks the elapsed-time
schedule `trips` and raises ValidationTimeout when it fires. -/
def processRows (s : Store) (doctype : String) (headers : List String)
    (requiredCols : List String) (uniqueCols : List String)
    (primaryKey : Option String) (fieldMap : List (String × Field)) (skip : Bool)
    (todayYear : Int) (trips : Nat → Bool) :
    Nat → RowState → Cache → List (List CellValue) → RowsOut × RowState × Cache
  | _, st, c, [] => (RowsOut.done [], st, c)
  | idx, st, c, row :: rest =>
      if idx % 100 == 0 && trips idx then (RowsOut.timedOut [], st, c)
      else
        match processRow s doctype headers requiredCols uniqueCols primaryKey
            fieldMap skip todayYear idx row st c with
        | Except.error _ => (RowsOut.failed [], st, c)
        | Except.ok (out, st1, c1) =>
            match processRows s doctype headers requiredCols uniqueCols primaryKey
                fieldMap skip todayYear trips (idx + 1) st1 c1 rest with
            | (RowsOut.done outs, st2, c2) => (RowsOut.done (out :: outs), st2, c2)
            | (RowsOut.timedOut outs, st2, c2) => (RowsOut.timedOut (out :: outs), st2, c2)
            | (RowsOut.failed outs, st2, c2) => (RowsOut.failed (out :: outs), st2, c2)

/-- A per-sheet result record as assembled by process_sheet_with_validation
or create_error_sheet. -/
structure SheetResult where
  sheet_name : String
  success : Bool
  error : Option String
  message : Option String
  error_count : Nat
  total_rows : Nat
  json_errors : List JsonError
  deriving DecidableEq, Repr

/-- create_error_sheet of the source: a failed sheet result carrying one
synthetic sheet-level json error (row 0, column Sheet), error_count 1 and
total_rows 0. -/
def create_error_sheet (sheetName : String) (errorCode : String)
    (errorMessage : String) : SheetResult :=
  { sheet_name := sheetName, success := false, error := some errorCode,
    message := some errorMessage, error_count := 1, total_rows := 0,
    json_errors := [mkJson sheetName 0 ("Sheet") (get_readable_error_code errorCode)
      errorMessage ("") (get_formatted_error_type errorCode) []] }

/-- One input worksheet: its name, its header row (None when the sheet has
no first row) and its data rows. -/
structure SheetInput where
  name : String
  headerRow : Option (List CellValue)
  rows : List (List CellValue)

/-- The successful sheet result of process_sheet_with_validation:
error_count is the length of the flat json error list and total_rows counts
every data row read from the sheet. -/
def mkOkSheet (doctype : String) (jsonErrors : List JsonError) (totalRows : Nat) :
    SheetResult :=
  { sheet_name := doctype, success := true, error := Option.none,
    message := Option.none, error_count := jsonErrors.length,
    total_rows := totalRows, json_errors := jsonErrors }

/-- The worksheet-name normalization of the sheet_map lookup. -/
def normSheetName (s : String) : String := sReplaceChar (Char.ofNat 32) [] (sLower s)

/-- Outcome of process_sheet_with_validation: a result returned normally
(success or an error sheet), or a propagated ValidationTimeout. -/
inductive SheetRun where
  | completed (r : SheetResult)
  | timedOut
  deriving DecidableEq, Repr

/-- process_sheet_with_validation of the source: worksheet lookup, header
validation, metadata load, link-cache prefetch, field mappings, the
NO_DATA_ROWS check and the row loop.  An exception in the row loop is caught
into a PROCESSING_ERROR sheet; ValidationTimeout propagates.  (The annotated
output workbook is an I/O side effect and is not modelled.) -/
def process_sheet_with_validation (s : Store) (sheets : List SheetInput)
    (doctype : String) (skip : Bool) (todayYear : Int) (trips : Nat → Bool)
    (c : Cache) : SheetRun × Cache :=
  let sheetKey := normSheetName doctype
  match (sheets.reverse).find? (fun sh => normSheetName sh.name == sheetKey) with
  | Option.none =>
      (SheetRun.completed (create_error_sheet doctype ("SHEET_NOT_FOUND")
        ("Worksheet " ++ sq ++ doctype ++ sq ++ " not found.")), c)
  | some sheetInput =>
      match sheetInput.headerRow with
      | Option.none =>
          (SheetRun.completed (create_error_sheet doctype ("NO_HEADER")
            ("Header row missing")), c)
      | some headerRow =>
          let headers := (headerRow.filter truthy).map (fun h => sTrim (pyStr h))
          if headers.isEmpty then
            (SheetRun.completed (create_error_sheet doctype ("EMPTY_HEADERS")
              ("The header row is empty or the sheet is blank.")), c)
          else if headerRow.any (fun h => h = CellValue.none || sTrim (pyStr h) == "") then
            (SheetRun.completed (create_error_sheet doctype ("EMPTY_HEADERS")
              ("The header row contains blank cells between columns.")), c)
          else if headers.length ≠ headers.eraseDups.length then
            (SheetRun.completed (create_error_sheet doctype ("DUPLICATE_HEADERS")
              ("The header row contains duplicate column names.")), c)
          else
            match s.getMeta doctype with
            | Except.error _ =>
                (SheetRun.completed (create_error_sheet doctype ("DOCTYPE_ERROR")
                  ("Failed to load DocType metadata")), c)
            | Except.ok meta =>
                let c1 := if skip then c else prefetch_link_caches s meta c
                let requiredCols := required_columns_of meta headers
                let fieldMap := build_field_map meta headers
                let uniqueCols := get_unique_columns meta headers
                let primaryKey := get_primary_key meta headers
                let allRows := sheetInput.rows
                let validRows := allRows.filter (fun r =>
                  r.any (fun cv => cv ≠ CellValue.none && sTrim (pyStr cv) != ""))
                if validRows.isEmpty then
                  (SheetRun.completed (create_error_sheet doctype ("NO_DATA_ROWS")
                    ("The file contains no data rows.")), c1)
                else
                  match processRows s doctype headers requiredCols uniqueCols
                      primaryKey fieldMap skip todayYear trips 2
                      (initRowState uniqueCols) c1 allRows with
                  | (RowsOut.done outs, _, c2) =>
                      let jsonErrors := (outs.map (fun o => o.errors)).flatten
                      (SheetRun.completed (mkOkSheet doctype jsonErrors allRows.length), c2)
                  | (RowsOut.timedOut _, _, c2) => (SheetRun.timedOut, c2)
                  | (RowsOut.failed _, _, c2) =>
                      (SheetRun.completed (create_error_sheet doctype
                        ("PROCESSING_ERROR") ("Unexpected error")), c2)

/-- check_doctype_exists of the source (exceptions become False). -/
def check_doctype_exists (s : Store) (d : String) : Bool :=
  match s.docTypeExists d with
  | Except.ok b => b
  | Except.error _ => false

/-- The aggregate statistics of validate_and_add_error_columns. -/
structure BatchStats where
  total_sheets : Nat
  validated_sheets : Nat
  total_errors : Nat
  total_rows : Nat
  sheet_results : List SheetResult
  all_json_errors : List JsonError
  structure_valid : Bool
  deriving DecidableEq, Repr

/-- The per-sheet loop of validate_and_add_error_columns.  `sheetIdx` is the
1-based position; `overallTrips` models the overall elapsed-time check that
breaks out of the loop; `sheetTrips` gives each sheet its per-row timeout
schedule.  Mirrors the source: an unknown doctype appends an error sheet and
extends the flat error list only; a completed sheet extends the flat list,
counts a validated sheet on success, and accumulates error and row totals; a
ValidationTimeout appends a TIMEOUT_ERROR sheet and nothing else. -/
def batchLoop (s : Store) (allSheets : List SheetInput) (skip : Bool)
    (todayYear : Int) (sheetTrips : Nat → Nat → Bool) (overallTrips : Nat → Bool) :
    Nat → Nat → Nat → Nat → List SheetResult → List JsonError → Cache →
    List SheetInput →
    (Nat × Nat × Nat × List SheetResult × List JsonError × Cache)
  | _, validated, errs, rows, results, allJson, c, [] =>
      (validated, errs, rows, results, allJson, c)
  | sheetIdx, validated, errs, rows, results, allJson, c, sh :: rest =>
      if overallTrips sheetIdx then (validated, errs, rows, results, allJson, c)
      else if !(check_doctype_exists s sh.name) then
        let r := create_error_sheet sh.name ("DOCTYPE_NOT_FOUND")
          ("DocType " ++ sq ++ sh.name ++ sq ++ " not found in Frappe")
        batchLoop s allSheets skip todayYear sheetTrips overallTrips
          (sheetIdx + 1) validated errs rows (results ++ [r])
          (allJson ++ r.json_errors) c rest
      else
        match process_sheet_with_validation s allSheets sh.name skip todayYear
            (sheetTrips sheetIdx) c with
        | (SheetRun.completed r, c1) =>
            batchLoop s allSheets skip todayYear sheetTrips overallTrips
              (sheetIdx + 1) (if r.success then validated + 1 else validated)
              (errs + r.error_count) (rows + r.total_rows) (results ++ [r])
              (allJson ++ r.json_errors) c1 rest
        | (SheetRun.timedOut, c1) =>
            let r := create_error_sheet sh.name ("TIMEOUT_ERROR")
              ("Sheet processing exceeded " ++ toString SHEET_TIMEOUT ++ "s timeout")
            batchLoop s allSheets skip todayYear sheetTrips overallTrips
              (sheetIdx + 1) validated errs rows (results ++ [r]) allJson c1 rest

/-- validate_and_add_error_columns of the source, from the workbook on: the
per-sheet loop followed by assembly of the summary object whose
structure_valid flag is total_errors == 0. -/
def runBatch (s : Store) (sheets : List SheetInput) (skip : Bool) (todayYear : Int)
    (sheetTrips : Nat → Nat → Bool) (overallTrips : Nat → Bool) (c : Cache) :
    BatchStats × Cache :=
  match batchLoop s sheets skip todayYear sheetTrips overallTrips
      1 0 0 0 [] [] c sheets with
  | (validated, errs, rows, results, allJson, c1) =>
      ({ total_sheets := sheets.length, validated_sheets := validated,
         total_errors := errs, total_rows := rows, sheet_results := results,
         all_json_errors := allJson, structure_valid := errs == 0 }, c1)

/-! ### Reachability of the process-wide cache, and agreement on a key set -/

/-- Decidable equality for Except, to evaluate store results in witnesses. -/
instance exceptDecEq {eTy aTy : Type} [DecidableEq eTy] [DecidableEq aTy] :
    DecidableEq (Except eTy aTy) := fun a b =>
  match a, b with
  | Except.ok x, Except.ok y =>
      if h : x = y then isTrue (by rw [h])
      else isFalse (by intro hh; cases hh; exact h rfl)
  | Except.error x, Except.error y =>
      if h : x = y then isTrue (by rw [h])
      else isFalse (by intro hh; cases hh; exact h rfl)
  | Except.ok _, Except.error _ => isFalse (by intro hh; cases hh)
  | Except.error _, Except.ok _ => isFalse (by intro hh; cases hh)

/-- A linkSizes entry is exactly what a count query of the unchanged store
returns. -/
def sizeEntryOkB (s : Store) (p : String × Nat) : Bool :=
  decide (s.countRecords p.1 = Except.ok p.2)

/-- A linkCache entry is a materialization the unchanged store would
produce: the count succeeds, is within the cache limit, and the id list is
the one the store returns. -/
def cacheEntryOkB (s : Store) (p : String × List String) : Bool :=
  match s.countRecords p.1 with
  | Except.ok n => decide (n ≤ LINK_CACHE_LIMIT) && decide (s.listIds p.1 = Except.ok p.2)
  | Except.error _ => false

/-- A cache state is reachable for a store when every entry (live or
shadowed) is one the code could have written against that unchanged store:
this holds for the empty cache and is preserved by prefetching and by the
lazy population inside link_exists. -/
def Reachable (s : Store) (c : Cache) : Prop :=
  (∀ p ∈ c.linkSizes, sizeEntryOkB s p = true) ∧
  (∀ p ∈ c.linkCache, cacheEntryOkB s p = true)

/-- Two caches agree on a set of doctypes when their live entries coincide
there. -/
def CacheAgree (S : List String) (c1 c2 : Cache) : Prop :=
  ∀ d ∈ S, alookup c1.linkCache d = alookup c2.linkCache d ∧
    alookup c1.linkSizes d = alookup c2.linkSizes d

/-- The canonical linkSizes entry for a doctype after prefetching it. -/
def canonSizes (s : Store) (d : String) : Option Nat :=
  match s.countRecords d with
  | Except.ok n => some n
  | Except.error _ => Option.none

/-- The canonical linkCache entry for a doctype after prefetching it. -/
def canonCache (s : Store) (d : String) : Option (List String) :=
  match s.countRecords d with
  | Except.error _ => Option.none
  | Except.ok n =>
      if n > LINK_CACHE_LIMIT then Option.none
      else
        match s.listIds d with
        | Except.ok l => some l
        | Except.error _ => Option.none

/-- Every Link field of a field map points into the doctype set S (used to
confine cache reads of a sheet to its prefetched doctypes). -/
def LinkTargetsIn (fm : List (String × Field)) (S : List String) : Prop :=
  ∀ p ∈ fm, p.2.fieldtype = "Link" → ∀ d, p.2.options = some d → d ≠ "" → d ∈ S

/-! ### Concrete fixtures used by the claim theorems and their witnesses -/

/-- A trips schedule that never fires (no timeout). -/
def noTrips : Nat → Bool := fun _ => false

/-- A store whose every operation raises. -/
def failingStore : Store :=
  { docTypeExists := fun _ => Except.error (),
    countRecords := fun _ => Except.error (),
    listIds := fun _ => Except.error (),
    existsRec := fun _ _ => Except.error (),
    getMeta := fun _ => Except.error () }

/-- The errors of a processRow result (empty on exception). -/
def rowOutErrors (r : Except Unit (RowOut × RowState × Cache)) : List JsonError :=
  match r with
  | Except.ok (out, _, _) => out.errors
  | Except.error _ => []

/-- The short-error count of a processRow result. -/
def rowOutCount (r : Except Unit (RowOut × RowState × Cache)) : Nat :=
  match r with
  | Except.ok (out, _, _) => out.shortCount
  | Except.error _ => 0

/-- A default RowOut, for positional access into row outputs. -/
def defaultRowOut : RowOut := { errors := [], shortCount := 0 }

/-- A Year field of type Int. -/
def yearField : Field :=
  { label := some "Year", fieldname := some "year", fieldtype := "Int",
    reqd := true, unique := false, options := Option.none }

/-- The field map of a sheet with the single Year column. -/
def fmYear : List (String × Field) := build_field_map [yearField] ["Year"]

/-- A required Email field of type Data. -/
def emailField : Field :=
  { label := some "Email", fieldname := some "email", fieldtype := "Data",
    reqd := true, unique := false, options := Option.none }

/-- An optional Notes2 field of type Data. -/
def notes2Field : Field :=
  { label := some "Notes2", fieldname := some "notes2", fieldtype := "Data",
    reqd := false, unique := false, options := Option.none }

/-- The metadata of the C2 scenario sheet. -/
def metaC2 : List Field := [emailField, notes2Field]

/-- The headers of the C2 scenario sheet. -/
def hdrsC2 : List String := ["Email", "Notes2"]

/-- An optional Status field of type Data. -/
def statusField : Field :=
  { label := some "Status", fieldname := some "status", fieldtype := "Data",
    reqd := false, unique := false, options := Option.none }

/-- A primary-key field (fieldname name) labelled ID, of type Data. -/
def idField : Field :=
  { label := some "ID", fieldname := some "name", fieldtype := "Data",
    reqd := false, unique := false, options := Option.none }

/-- A Link field targeting the Country doctype. -/
def countryField : Field :=
  { label := some "Country", fieldname := some "country", fieldtype := "Link",
    reqd := false, unique := false, options := some "Country" }

/-- A store with a large Country doctype (6000 records, above the cache
limit) and a small City doctype with two records. -/
def countryStore : Store :=
  { docTypeExists := fun d => Except.ok (d == "Country" || d == "City"),
    countRecords := fun d =>
      if d == "Country" then Except.ok 6000
      else if d == "City" then Except.ok 2 else Except.error (),
    listIds := fun d =>
      if d == "City" then Except.ok ["Pune", "Agra"] else Except.error (),
    existsRec := fun d n =>
      Except.ok ((d == "Country" && n == "India") || (d == "City" && n == "Pune")),
    getMeta := fun _ => Except.error () }

/-- The timing-out fixture sheet: a Year column and 120 rows of the invalid
year value abc. -/
def tSheet : SheetInput :=
  { name := "S", headerRow := some [CellValue.str ("Year")],
    rows := List.replicate 120 [CellValue.str ("abc")] }

/-- The store of the timeout fixture: doctype S exists, with the Year
metadata; everything else raises. -/
def tStore : Store :=
  { docTypeExists := fun d => Except.ok (d == "S"),
    countRecords := fun _ => Except.error (),
    listIds := fun _ => Except.error (),
    existsRec := fun _ _ => Except.error (),
    getMeta := fun d => if d == "S" then Except.ok [yearField] else Except.error () }

/-- A trips schedule firing exactly at the row-100 checkpoint. -/
def tripAt100 : Nat → Bool := fun i => i == 100

/-- The sheet-indexed trips schedule firing at the row-100 checkpoint of
every sheet. -/
def tTrips : Nat → Nat → Bool := fun _ i => i == 100

/-- A single-column sheet whose doctype is unknown to the store. -/
def uSheet : SheetInput :=
  { name := "Unknown", headerRow := some [CellValue.str ("A")],
    rows := [[CellValue.str ("x")]] }

/-- The json error produced for row 2 of the timeout fixture (an
INVALID_YEAR on the Year column), used to show processed rows produce errors
that the timeout path then discards. -/
def tRow2Error : JsonError :=
  mkJson ("S") 2 ("Year") (get_readable_error_code ("INVALID_YEAR"))
    ("Invalid year: abc") ("abc") (get_formatted_error_type ("INVALID_YEAR")) []

/-- A City-link sheet for the cache-independence witness: one Link column
targeting City, two rows. -/
def citySheet : SheetInput :=
  { name := "Trip", headerRow := some [CellValue.str ("City")],
    rows := [[CellValue.str ("Pune")], [CellValue.str ("Atlantis")]] }

/-- The store of the cache-independence witness: doctype Trip with one Link
field to City; City has two records. -/
def cityStore : Store :=
  { docTypeExists := fun d => Except.ok (d == "Trip" || d == "City"),
    countRecords := fun d => if d == "City" then Except.ok 2 else Except.error (),
    listIds := fun d => if d == "City" then Except.ok ["Pune", "Agra"] else Except.error (),
    existsRec := fun d n => Except.ok (d == "City" && n == "Pune"),
    getMeta := fun d =>
      if d == "Trip" then
        Except.ok [{ label := some "City", fieldname := some "city", fieldtype := "Link",
                     reqd := false, unique := false, options := some "City" }]
      else Except.error () }

/-- A populated cache consistent with cityStore (what a previous run against
the unchanged store would have left behind). -/
def cityCache : Cache :=
  { linkCache := [("City", ["Pune", "Agra"])], linkSizes := [("City", 2)] }

/-- The per-row error lists of a processRows result. -/
def rowsOutErrorLists (r : RowsOut × RowState × Cache) : List (List JsonError) :=
  match r.1 with
  | RowsOut.done outs => outs.map (fun o => o.errors)
  | RowsOut.timedOut outs => outs.map (fun o => o.errors)
  | RowsOut.failed outs => outs.map (fun o => o.errors)

/-- The error codes validate_datatypes can emit. -/
def dtypeCodes : List String :=
  ["REQUIRED_FIELD_EMPTY", "INVALID_YEAR", "INVALID_YEAR_RANGE", "INVALID_INT",
   "INVALID_FLOAT", "INVALID_DATE", "INVALID_DATETIME", "LINK_CONFIG_ERROR",
   "LINK_NOT_FOUND"]

/-- Whether the zipped row is entirely blank/placeholder. -/
def rowIsEmpty (headers : List String) (row : List CellValue) : Bool :=
  isEmptyRowDict (headers.zip row)

/-- The normalized whole-row signature of a zipped row. -/
def rowSigOf (headers : List String) (row : List CellValue) : List String :=
  rowSignature (headers.zip row)

/-- The rows of the C6 duplicate-tracking witness. -/
def c6Rows : List (List CellValue) :=
  [[CellValue.str ("a")], [CellValue.str ("b")], [CellValue.str ("a")]]

/-- The per-row outputs of the C6 witness run. -/
def c6Outs : List RowOut :=
  [{ errors := [], shortCount := 0 }, { errors := [], shortCount := 0 },
   { errors := [mkDupRowError ("W") 4], shortCount := 1 }]

/-- The final duplicate-tracking state of the C6 witness run. -/
def c6State : RowState :=
  { seenRows := [["b"], ["a"]], seenPrimary := [], seenUnique := [] }

def linkExistsAbs (s : Store) (d : String) (nm : String) (cs : Bool)
    (szs : Option Nat) (cch : Option (List String)) :
    Bool × Option (Sum Nat (List String)) :=
  if d = "" || nm = "" then (false, Option.none)
  else
    match s.docTypeExists d with
    | Except.error _ => (false, Option.none)
    | Except.ok false => (false, Option.none)
    | Except.ok true =>
        let isLarge : Bool :=
          match szs with
          | some n => decide (n > LINK_CACHE_LIMIT)
          | Option.none => false
        if isLarge then
          match s.existsRec d (sTrim nm) with
          | Except.error _ => (false, Option.none)
          | Except.ok b => (b, Option.none)
        else
          let scan : List String → Bool := fun cached =>
            if cs then cached.contains (sTrim nm)
            else cached.any (fun x => sLower x == sLower (sTrim nm))
          match cch with
          | some cached => (scan cached, Option.none)
          | Option.none =>
              match s.countRecords d with
              | Except.error _ => (false, Option.none)
              | Except.ok n =>
                  if n > LINK_CACHE_LIMIT then
                    match s.existsRec d nm with
                    | Except.error _ => (false, some (Sum.inl n))
                    | Except.ok b => (b, some (Sum.inl n))
                  else
                    match s.listIds d with
                    | Except.error _ => (false, Option.none)
                    | Except.ok l => (scan l, some (Sum.inr l))

def applyCacheUpd (c : Cache) (d : String) : Option (Sum Nat (List String)) → Cache
  | Option.none => c
  | some (Sum.inl n) => { c with linkSizes := aput c.linkSizes d n }
  | some (Sum.inr l) => { c with linkCache := aput c.linkCache d l }

/-- The soundness condition an update must satisfy against the store. -/
def UpdSound (s : Store) (d : String) : Option (Sum Nat (List String)) → Prop
  | Option.none => True
  | some (Sum.inl n) => s.countRecords d = Except.ok n
  | some (Sum.inr l) => ∃ n, s.countRecords d = Except.ok n ∧ n ≤ LINK_CACHE_LIMIT ∧
      s.listIds d = Except.ok l

/-- Relates two stateful runs: both raised, or both returned equal values
with caches agreeing on S and reachable. -/
def PairOk {aTy : Type} (S : List String) (s : Store)
    (r1 r2 : Except Unit (aTy × Cache)) : Prop :=
  match r1, r2 with
  | Except.error _, Except.error _ => True
  | Except.ok (a1, c1x), Except.ok (a2, c2x) =>
      a1 = a2 ∧ CacheAgree S c1x c2x ∧ Reachable s c1x ∧ Reachable s c2x
  | _, _ => False

/-- Two stateful row runs: both raised, or equal outputs and states with
agreeing, reachable caches. -/
def TripleOk {aTy bTy : Type} (S : List String) (s : Store)
    (r1 r2 : Except Unit (aTy × bTy × Cache)) : Prop :=
  match r1, r2 with
  | Except.error _, Except.error _ => True
  | Except.ok (a1, b1, c1x), Except.ok (a2, b2, c2x) =>
      a1 = a2 ∧ b1 = b2 ∧ CacheAgree S c1x c2x ∧ Reachable s c1x ∧ Reachable s c2x
  | _, _ => False

/-- Two row-loop runs: equal outcomes and duplicate state, with agreeing,
reachable final caches. -/
def RowsOk (S : List String) (s : Store)
    (r1 r2 : RowsOut × RowState × Cache) : Prop :=
  r1.1 = r2.1 ∧ r1.2.1 = r2.2.1 ∧ CacheAgree S r1.2.2 r2.2.2 ∧
    Reachable s r1.2.2 ∧ Reachable s r2.2.2

/-- Two batch-loop runs: equal counters, results and flat error lists, with
reachable final caches. -/
def BatchOk (s : Store)
    (r1 r2 : Nat × Nat × Nat × List SheetResult × List JsonError × Cache) : Prop :=
  r1.1 = r2.1 ∧ r1.2.1 = r2.2.1 ∧ r1.2.2.1 = r2.2.2.1 ∧
  r1.2.2.2.1 = r2.2.2.2.1 ∧ r1.2.2.2.2.1 = r2.2.2.2.2.1 ∧
  Reachable s r1.2.2.2.2.2 ∧ Reachable s r2.2.2.2.2.2

/-!
## Theorems

Each claim of the specification gets one theorem below (with a witness or a
counterexample where required); shared helper lemmas precede them.
-/

/-- Looking up the key just written. -/
theorem alookup_aput_same {α : Type} (l : List (String × α)) (k : String) (v : α) :
    alookup (aput l k v) k = some v := by
  simp [alookup, aput, List.find?]

/-- Looking up a different key skips the written entry. -/
theorem alookup_aput_ne {α : Type} (l : List (String × α)) (k k' : String) (v : α)
    (h : k' ≠ k) : alookup (aput l k v) k' = alookup l k' := by
  have hb : (k == k') = false := by
    simp [beq_iff_eq]
    exact fun hh => h hh.symm
  simp [alookup, aput, List.find?, hb]

theorem validate_link_field_codes (s : Store) (df : Field) (v : CellValue)
    (label : String) (idx : Nat) (skip : Bool) (c : Cache) (le : DtypeError)
    (c1 : Cache)
    (h : validate_link_field s df v label idx skip c = Except.ok (some le, c1)) :
    le.code = "LINK_CONFIG_ERROR" ∨ le.code = "LINK_NOT_FOUND" := by
  unfold validate_link_field at h
  repeat' (first
    | (split at h)
    | (simp only [Except.ok.injEq, Prod.mk.injEq, Option.some.injEq, reduceCtorEq,
        false_and, and_false] at h))
  all_goals (obtain ⟨h1, h2⟩ := h)
  all_goals (subst h1; simp [mkDtype])

set_option maxHeartbeats 2000000 in
theorem validateOneCell_codes (s : Store) (skip : Bool) (ty : Int)
    (fm : List (String × Field)) (idx : Nat) (item : String × CellValue) (c : Cache)
    (res : List DtypeError × Cache)
    (h : validateOneCell s skip ty fm idx item c = Except.ok res) :
    ∀ e ∈ res.1, e.code ∈ dtypeCodes := by
  unfold validateOneCell at h
  repeat' (first
    | (split at h)
    | (simp only [Except.ok.injEq, Prod.mk.injEq, Option.some.injEq, reduceCtorEq,
        false_and, and_false] at h))
  all_goals intro e he
  all_goals try (subst h)
  all_goals simp_all [mkDtype, dtypeCodes]
  all_goals (try (rcases he with he | he))
  all_goals (try (subst he; simp [mkDtype, dtypeCodes]))
  all_goals (try (subst he))
  all_goals (rcases validate_link_field_codes _ _ _ _ _ _ _ _ _ (by assumption) with hc | hc <;> simp [hc, dtypeCodes])

theorem validate_datatypes_codes (s : Store) (skip : Bool) (ty : Int)
    (fm : List (String × Field)) (idx : Nat) :
    ∀ (items : List (String × CellValue)) (errs : List DtypeError) (c : Cache)
      (res : List DtypeError × Cache),
      validate_datatypes s skip ty fm idx items errs c = Except.ok res →
      (∀ e ∈ errs, e.code ∈ dtypeCodes) → ∀ e ∈ res.1, e.code ∈ dtypeCodes := by
  intro items
  induction items with
  | nil =>
      intro errs c res h hacc
      unfold validate_datatypes at h
      cases h
      exact hacc
  | cons it rest ih =>
      intro errs c res h hacc
      unfold validate_datatypes at h
      rcases hone : validateOneCell s skip ty fm idx it c with e1 | p
      · rw [hone] at h
        cases h
      · rw [hone] at h
        refine ih (errs ++ p.1) p.2 res ?_ ?_
        · exact h
        · intro e he
          rcases List.mem_append.mp he with hl | hr
          · exact hacc e hl
          · exact validateOneCell_codes s skip ty fm idx it c p hone e hr

theorem dtype_code_not_duprow (cd : String) (h : cd ∈ dtypeCodes) :
    get_readable_error_code cd ≠ "Duplicate Row" := by
  simp only [dtypeCodes, List.mem_cons, List.mem_singleton, List.not_mem_nil, or_false] at h
  rcases h with rfl | rfl | rfl | rfl | rfl | rfl | rfl | rfl | rfl <;> decide

theorem code_mkRequiredError (d : String) (i : Nat) (col : String) :
    (mkRequiredError d i col).code = "Required Field Empty" := rfl

theorem code_mkEmptyRowError (d : String) (i : Nat) :
    (mkEmptyRowError d i).code = "Empty Row" := rfl

theorem code_mkDupRowError (d : String) (i : Nat) :
    (mkDupRowError d i).code = "Duplicate Row" := rfl

theorem code_mkDupPkError (d : String) (i : Nat) (pk : String) (v : CellValue) :
    (mkDupPkError d i pk v).code = "Duplicate ID" := rfl

theorem code_mkDupUniqueError (d : String) (i : Nat) (col : String) (v : CellValue) :
    (mkDupUniqueError d i col v).code = "Duplicate Value" := rfl

theorem mkRequiredError_ne_duprow (d : String) (i : Nat) (col : String)
    (d2 : String) (i2 : Nat) : mkRequiredError d i col ≠ mkDupRowError d2 i2 := by
  intro hh
  have hc := congrArg JsonError.code hh
  rw [code_mkRequiredError, code_mkDupRowError] at hc
  exact absurd hc (by decide)

theorem mkEmptyRowError_ne_duprow (d : String) (i : Nat) (d2 : String) (i2 : Nat) :
    mkEmptyRowError d i ≠ mkDupRowError d2 i2 := by
  intro hh
  have hc := congrArg JsonError.code hh
  rw [code_mkEmptyRowError, code_mkDupRowError] at hc
  exact absurd hc (by decide)

theorem mkDupPkError_ne_duprow (d : String) (i : Nat) (pk : String) (v : CellValue)
    (d2 : String) (i2 : Nat) : mkDupPkError d i pk v ≠ mkDupRowError d2 i2 := by
  intro hh
  have hc := congrArg JsonError.code hh
  rw [code_mkDupPkError, code_mkDupRowError] at hc
  exact absurd hc (by decide)

theorem mkDupUniqueError_ne_duprow (d : String) (i : Nat) (col : String)
    (v : CellValue) (d2 : String) (i2 : Nat) :
    mkDupUniqueError d i col v ≠ mkDupRowError d2 i2 := by
  intro hh
  have hc := congrArg JsonError.code hh
  rw [code_mkDupUniqueError, code_mkDupRowError] at hc
  exact absurd hc (by decide)

theorem jsonOfDtype_ne_duprow (d : String) (rd : List (String × CellValue)) (i : Nat)
    (e : DtypeError) (he : e.code ∈ dtypeCodes) (d2 : String) (i2 : Nat) :
    jsonOfDtype d rd i e ≠ mkDupRowError d2 i2 := by
  intro hh
  have hc := congrArg JsonError.code hh
  rw [code_mkDupRowError] at hc
  have hcc : get_readable_error_code e.code = "Duplicate Row" := by
    simpa [jsonOfDtype, mkJson] using hc
  exact dtype_code_not_duprow e.code he hcc

theorem pkPartF_codes (d : String) (i : Nat) (rd : List (String × CellValue))
    (pk : Option String) (sp : List String) :
    ∀ e ∈ (pkPartF d i rd pk sp).1, e.code = "Duplicate ID" := by
  intro e he
  unfold pkPartF at he
  dsimp only at he
  repeat' split at he
  all_goals simp_all
  subst he
  exact code_mkDupPkError d i _ _

theorem uniqFold_codes (d : String) (i : Nat) (rd : List (String × CellValue)) :
    ∀ (cols : List String) (acc : List JsonError × List (String × List String)),
      (∀ e ∈ acc.1, e.code = "Duplicate Value") →
      ∀ e ∈ (cols.foldl (uniqStepF d i rd) acc).1, e.code = "Duplicate Value" := by
  intro cols
  induction cols with
  | nil => intro acc hacc; simpa using hacc
  | cons col rest ih =>
      intro acc hacc
      simp only [List.foldl_cons]
      refine ih (uniqStepF d i rd acc col) ?_
      intro e he
      unfold uniqStepF at he
      dsimp only at he
      repeat' split at he
      all_goals (try (exact hacc e he))
      all_goals (rcases List.mem_append.mp he with hl | hr)
      all_goals (try (exact hacc e hl))
      all_goals simp_all
      subst hr
      exact code_mkDupUniqueError d i _ _

theorem processRow_dup_spec (s : Store) (doctype : String) (headers : List String)
    (req uniq : List String) (pk : Option String) (fm : List (String × Field))
    (skip : Bool) (ty : Int) (idx : Nat) (row : List CellValue) (st : RowState)
    (c : Cache) (out : RowOut) (st1 : RowState) (c1 : Cache)
    (h : processRow s doctype headers req uniq pk fm skip ty idx row st c =
      Except.ok (out, st1, c1)) :
    (mkDupRowError doctype idx ∈ out.errors ↔
      (isEmptyRowDict (headers.zip row) = false ∧
       rowSignature (headers.zip row) ≠ [] ∧
       rowSignature (headers.zip row) ∈ st.seenRows)) ∧
    st1.seenRows = (if isEmptyRowDict (headers.zip row) = true then st.seenRows
      else st.seenRows.insert (rowSignature (headers.zip row))) := by
  by_cases he : isEmptyRowDict (headers.zip row) = true
  · unfold processRow at h
    dsimp only at h
    rw [if_pos he] at h
    simp only [Except.ok.injEq, Prod.mk.injEq] at h
    obtain ⟨h1, h2, h3⟩ := h
    subst h1
    subst h2
    refine ⟨?_, by rw [if_pos he]⟩
    constructor
    · intro hmem
      simp only [List.mem_singleton] at hmem
      exact absurd hmem.symm (mkEmptyRowError_ne_duprow doctype idx doctype idx)
    · rintro ⟨hf, _⟩
      rw [he] at hf
      cases hf
  · unfold processRow at h
    dsimp only at h
    rw [if_neg he] at h
    rcases hdt : validate_datatypes s skip ty fm idx (headers.zip row) [] c with er | p
    · rw [hdt] at h
      cases h
    · rw [hdt] at h
      dsimp only at h
      simp only [Except.ok.injEq, Prod.mk.injEq] at h
      obtain ⟨h1, h2, h3⟩ := h
      subst h1
      subst h2
      rw [if_neg he]
      refine ⟨?_, rfl⟩
      have hreq : mkDupRowError doctype idx ∉
          (req.filter (fun col => isNaLiteral (cellAt (headers.zip row) col))).map
            (mkRequiredError doctype idx) := by
        intro hmem
        rcases List.mem_map.mp hmem with ⟨col, _, hcol⟩
        exact (mkRequiredError_ne_duprow doctype idx col doctype idx) hcol
      have hdtj : mkDupRowError doctype idx ∉
          p.1.map (jsonOfDtype doctype (headers.zip row) idx) := by
        intro hmem
        rcases List.mem_map.mp hmem with ⟨e2, he2, hee⟩
        have hcode := validate_datatypes_codes s skip ty fm idx (headers.zip row) [] c
          p hdt (by intro x hx; cases hx) e2 he2
        exact (jsonOfDtype_ne_duprow doctype (headers.zip row) idx e2 hcode doctype idx) hee
      have hpk : mkDupRowError doctype idx ∉
          (pkPartF doctype idx (headers.zip row) pk st.seenPrimary).1 := by
        intro hmem
        have := pkPartF_codes doctype idx (headers.zip row) pk st.seenPrimary _ hmem
        rw [code_mkDupRowError] at this
        exact absurd this (by decide)
      have huq : mkDupRowError doctype idx ∉
          (uniq.foldl (uniqStepF doctype idx (headers.zip row)) ([], st.seenUnique)).1 := by
        intro hmem
        have := uniqFold_codes doctype idx (headers.zip row) uniq ([], st.seenUnique)
          (by intro x hx; cases hx) _ hmem
        rw [code_mkDupRowError] at this
        exact absurd this (by decide)
      simp only [List.mem_append, hreq, hdtj, hpk, huq, or_false, false_or]
      by_cases hflag : (!(rowSignature (headers.zip row)).isEmpty &&
          st.seenRows.contains (rowSignature (headers.zip row))) = true
      · rw [if_pos hflag]
        simp only [List.mem_singleton]
        simp only [Bool.and_eq_true, Bool.not_eq_true] at hflag
        constructor
        · intro _
          refine ⟨by simpa using he, ?_, ?_⟩
          · intro hnil
            rw [hnil] at hflag
            simp at hflag
          · have := hflag.2
            simpa using this
        · intro _
          trivial
      · rw [if_neg hflag]
        simp only [List.not_mem_nil, false_iff]
        rintro ⟨_, hnil, hmem⟩
        apply hflag
        simp only [Bool.and_eq_true, Bool.not_eq_true]
        constructor
        · rcases hsig : rowSignature (headers.zip row) with _ | ⟨a, l⟩
          · exact absurd hsig hnil
          · simp
        · simpa using hmem

theorem exists_lt_succ_shift (P : Nat → Prop) (j : Nat) :
    (∃ i, i < j + 1 ∧ P i) ↔ (P 0 ∨ ∃ i, i < j ∧ P (i + 1)) := by
  constructor
  · rintro ⟨i, hi, hp⟩
    cases i with
    | zero => exact Or.inl hp
    | succ i2 => exact Or.inr ⟨i2, by omega, hp⟩
  · rintro (hp | ⟨i, hi, hp⟩)
    · exact ⟨0, by omega, hp⟩
    · exact ⟨i + 1, by omega, hp⟩

theorem processRows_dup_spec (s : Store) (doctype : String) (headers : List String)
    (req uniq : List String) (pk : Option String) (fm : List (String × Field))
    (skip : Bool) (ty : Int) :
    ∀ (rows : List (List CellValue)) (idx : Nat) (st : RowState) (c : Cache)
      (outs : List RowOut) (st2 : RowState) (c2 : Cache),
      processRows s doctype headers req uniq pk fm skip ty noTrips idx st c rows =
        (RowsOut.done outs, st2, c2) →
      outs.length = rows.length ∧
      ∀ j, j < rows.length →
        (mkDupRowError doctype (idx + j) ∈ (outs.getD j defaultRowOut).errors ↔
          (rowIsEmpty headers (rows.getD j []) = false ∧
           rowSigOf headers (rows.getD j []) ≠ [] ∧
           (rowSigOf headers (rows.getD j []) ∈ st.seenRows ∨
            ∃ i, i < j ∧ rowIsEmpty headers (rows.getD i []) = false ∧
              rowSigOf headers (rows.getD i []) = rowSigOf headers (rows.getD j [])))) := by
  intro rows
  induction rows with
  | nil =>
      intro idx st c outs st2 c2 h
      unfold processRows at h
      simp only [Prod.mk.injEq, RowsOut.done.injEq] at h
      obtain ⟨houts, hst, hc⟩ := h
      subst houts
      exact ⟨rfl, by intro j hj; cases hj⟩
  | cons row rest ih =>
      intro idx st c outs st2 c2 h
      unfold processRows at h
      simp only [noTrips, Bool.and_false, Bool.false_eq_true, if_false] at h
      rcases hpr : processRow s doctype headers req uniq pk fm skip ty idx row st c
        with er | q
      · rw [hpr] at h
        simp at h
      · rw [hpr] at h
        obtain ⟨out, st1, c1⟩ := q
        dsimp only at h
        rcases hrec : processRows s doctype headers req uniq pk fm skip ty noTrips
            (idx + 1) st1 c1 rest with ⟨ro, st2p, c2p⟩
        rw [hrec] at h
        cases ro with
        | timedOut o2 => simp at h
        | failed o2 => simp at h
        | done outs2 =>
            simp only [Prod.mk.injEq, RowsOut.done.injEq] at h
            obtain ⟨houts, hst2, hc2⟩ := h
            subst houts
            obtain ⟨hlen, hiff⟩ := ih (idx + 1) st1 c1 outs2 st2p c2p hrec
            have hspec := processRow_dup_spec s doctype headers req uniq pk fm skip
              ty idx row st c out st1 c1 hpr
            refine ⟨by simp [hlen], ?_⟩
            intro j hj
            cases j with
            | zero =>
                simp only [List.getD_cons_zero, Nat.add_zero]
                have h0 := hspec.1
                simp only [rowIsEmpty, rowSigOf]
                rw [h0]
                constructor
                · rintro ⟨ha, hb, hc3⟩
                  exact ⟨ha, hb, Or.inl hc3⟩
                · rintro ⟨ha, hb, hc3 | ⟨i, hi, _⟩⟩
                  · exact ⟨ha, hb, hc3⟩
                  · omega
            | succ j2 =>
                have hj2 : j2 < rest.length := by simpa using hj
                have hI := hiff j2 hj2
                simp only [List.getD_cons_succ]
                have harith : idx + (j2 + 1) = idx + 1 + j2 := by omega
                rw [harith, hI, hspec.2]
                by_cases he0 : isEmptyRowDict (headers.zip row) = true
                · rw [if_pos he0]
                  rw [exists_lt_succ_shift
                    (fun i => rowIsEmpty headers ((row :: rest).getD i []) = false ∧
                      rowSigOf headers ((row :: rest).getD i []) =
                        rowSigOf headers (rest.getD j2 []))]
                  simp only [List.getD_cons_zero, List.getD_cons_succ, rowIsEmpty, he0]
                  constructor
                  · rintro ⟨ha, hb, hc3⟩
                    refine ⟨ha, hb, ?_⟩
                    rcases hc3 with hc3 | hc3
                    · exact Or.inl hc3
                    · exact Or.inr (Or.inr hc3)
                  · rintro ⟨ha, hb, hc3 | hc3 | hc3⟩
                    · exact ⟨ha, hb, Or.inl hc3⟩
                    · simp at hc3
                    · exact ⟨ha, hb, Or.inr hc3⟩
                · rw [if_neg he0]
                  rw [exists_lt_succ_shift
                    (fun i => rowIsEmpty headers ((row :: rest).getD i []) = false ∧
                      rowSigOf headers ((row :: rest).getD i []) =
                        rowSigOf headers (rest.getD j2 []))]
                  simp only [List.getD_cons_zero, List.getD_cons_succ, rowIsEmpty,
                    rowSigOf, List.mem_insert_iff]
                  have hne : isEmptyRowDict (headers.zip row) = false := by
                    simpa using he0
                  constructor
                  · rintro ⟨ha, hb, hc3⟩
                    refine ⟨ha, hb, ?_⟩
                    rcases hc3 with hc3 | hc3
                    · rcases hc3 with hc3 | hc3
                      · exact Or.inr (Or.inl ⟨hne, hc3.symm⟩)
                      · exact Or.inl hc3
                    · exact Or.inr (Or.inr hc3)
                  · rintro ⟨ha, hb, hc3 | hc3 | hc3⟩
                    · exact ⟨ha, hb, Or.inl (Or.inr hc3)⟩
                    · exact ⟨ha, hb, Or.inl (Or.inl hc3.2.symm)⟩
                    · exact ⟨ha, hb, Or.inr hc3⟩

/-- C6: within one sheet, duplicate tracking inserts a row's normalized
full-row signature into the seen set only after testing membership: a row is
flagged DUPLICATE_ROW exactly when it is not an empty row, its signature is
non-empty, and some earlier non-empty row of the sheet has an identical
normalized signature — so the first row bearing any given signature is never
flagged and every subsequent row with an identical signature is. -/
theorem c6_duplicate_row_tracking (s : Store) (doctype : String)
    (headers : List String) (req uniq : List String) (pk : Option String)
    (fm : List (String × Field)) (skip : Bool) (ty : Int)
    (rows : List (List CellValue)) (outs : List RowOut) (st2 : RowState)
    (c2 : Cache) (j : Nat) (hj : j < rows.length)
    (hrun : processRows s doctype headers req uniq pk fm skip ty noTrips 2
      (initRowState uniq) emptyCache rows = (RowsOut.done outs, st2, c2)) :
    mkDupRowError doctype (2 + j) ∈ (outs.getD j defaultRowOut).errors ↔
      (rowIsEmpty headers (rows.getD j []) = false ∧
       rowSigOf headers (rows.getD j []) ≠ [] ∧
       ∃ i, i < j ∧ rowIsEmpty headers (rows.getD i []) = false ∧
         rowSigOf headers (rows.getD i []) = rowSigOf headers (rows.getD j [])) := by
  have h := (processRows_dup_spec s doctype headers req uniq pk fm skip ty rows 2
    (initRowState uniq) emptyCache outs st2 c2 hrun).2 j hj
  simpa [initRowState] using h

/-- C6 witness: in a three-row sheet a, b, a the third row (and only it) is
flagged DUPLICATE_ROW, by the theorem applied at j = 2. -/
theorem c6_witness :
    mkDupRowError ("W") 4 ∈ (c6Outs.getD 2 defaultRowOut).errors :=
  (c6_duplicate_row_tracking failingStore ("W") ["X"] [] [] Option.none [] false 2025
    c6Rows c6Outs c6State emptyCache 2 (by decide) rfl).mpr
    ⟨by decide, by decide, ⟨0, by decide, by decide, by decide⟩⟩

/-- C7: for a year field, the string 2024 validates; an unparseable value
such as abc yields INVALID_YEAR; a parsed year below 1900 (1899) yields
INVALID_YEAR_RANGE; and the upper boundary is currentYear+1 inclusive, so
with current year 2025 the value 2026 is valid and 2027 yields
INVALID_YEAR_RANGE. -/
theorem c7_year_field_boundaries (s : Store) :
    validate_datatypes s false 2025 fmYear 2 [("Year", CellValue.str ("2024"))] [] emptyCache
      = Except.ok ([], emptyCache) ∧
    validate_datatypes s false 2025 fmYear 2 [("Year", CellValue.str ("abc"))] [] emptyCache
      = Except.ok ([mkDtype 2 ("Year") ("INVALID_YEAR") ("Invalid year: abc") []],
          emptyCache) ∧
    validate_datatypes s false 2025 fmYear 2 [("Year", CellValue.int 1899)] [] emptyCache
      = Except.ok ([mkDtype 2 ("Year") ("INVALID_YEAR_RANGE")
          ("Year 1899 out of allowed range 1900-2026") []], emptyCache) ∧
    validate_datatypes s false 2025 fmYear 2 [("Year", CellValue.int 2026)] [] emptyCache
      = Except.ok ([], emptyCache) ∧
    validate_datatypes s false 2025 fmYear 2 [("Year", CellValue.int 2027)] [] emptyCache
      = Except.ok ([mkDtype 2 ("Year") ("INVALID_YEAR_RANGE")
          ("Year 2027 out of allowed range 1900-2026") []], emptyCache) :=
  ⟨rfl, rfl, rfl, rfl, rfl⟩

/-- C2 counterexample: with a required Email column (Data type) and a row
carrying the empty string there (plus a non-blank second column), the row
gets TWO REQUIRED_FIELD_EMPTY errors on Email (one from the required-columns
pass and one from validate_datatypes) and errorCount 2, not the exactly-one
error and errorCount 1 the claim states. -/
theorem c2_counterexample :
    rowOutCount (processRow failingStore ("Customer") hdrsC2
        (required_columns_of metaC2 hdrsC2) (get_unique_columns metaC2 hdrsC2)
        (get_primary_key metaC2 hdrsC2) (build_field_map metaC2 hdrsC2) false 2025 2
        [CellValue.str (""), CellValue.str ("x")]
        (initRowState (get_unique_columns metaC2 hdrsC2)) emptyCache) = 2 ∧
    (rowOutErrors (processRow failingStore ("Customer") hdrsC2
        (required_columns_of metaC2 hdrsC2) (get_unique_columns metaC2 hdrsC2)
        (get_primary_key metaC2 hdrsC2) (build_field_map metaC2 hdrsC2) false 2025 2
        [CellValue.str (""), CellValue.str ("x")]
        (initRowState (get_unique_columns metaC2 hdrsC2)) emptyCache)).countP
      (fun e => e.column == "Email" &&
        e.code == get_readable_error_code ("REQUIRED_FIELD_EMPTY")) = 2 ∧
    (2 : Nat) ≠ 1 :=
  ⟨rfl, rfl, by decide⟩

/-- C2 amended: a row supplying the empty string for a required (and not
optional-by-convention) column gets exactly two REQUIRED_FIELD_EMPTY errors
attributed to that column, one from the required-columns pass and one from
the datatype pass, with hasError true and errorCount 2. -/
theorem c2_amended :
    rowOutErrors (processRow failingStore ("Customer") hdrsC2
        (required_columns_of metaC2 hdrsC2) (get_unique_columns metaC2 hdrsC2)
        (get_primary_key metaC2 hdrsC2) (build_field_map metaC2 hdrsC2) false 2025 2
        [CellValue.str (""), CellValue.str ("x")]
        (initRowState (get_unique_columns metaC2 hdrsC2)) emptyCache)
      = [mkRequiredError ("Customer") 2 ("Email"),
         mkJson ("Customer") 2 ("Email") (get_readable_error_code ("REQUIRED_FIELD_EMPTY"))
           ("Field " ++ sq ++ "Email" ++ sq ++ " is empty") ("")
           (get_formatted_error_type ("REQUIRED_FIELD_EMPTY")) []] ∧
    rowOutCount (processRow failingStore ("Customer") hdrsC2
        (required_columns_of metaC2 hdrsC2) (get_unique_columns metaC2 hdrsC2)
        (get_primary_key metaC2 hdrsC2) (build_field_map metaC2 hdrsC2) false 2025 2
        [CellValue.str (""), CellValue.str ("x")]
        (initRowState (get_unique_columns metaC2 hdrsC2)) emptyCache) = 2 :=
  ⟨rfl, rfl⟩

/-- C5 counterexample: a row whose only cell is the mixed-case placeholder
Na — blank or placeholder under the case-insensitive reading of the claim —
is NOT treated as an empty row: the outcome has no errors at all rather than
exactly one EMPTY_ROW error. -/
theorem c5_counterexample :
    rowOutErrors (processRow failingStore ("S") ["Status"] [] [] Option.none
      (build_field_map [statusField] ["Status"]) false 2025 2 [CellValue.str ("Na")]
      (initRowState []) emptyCache) = [] ∧
    ([] : List JsonError) ≠ [mkEmptyRowError ("S") 2] :=
  ⟨rfl, by decide⟩

/-- C5 amended: for every row in which every cell is None or strips to one
of exactly the five placeholder spellings (empty, NA, N/A, na, n/a — all
upper or all lower, not arbitrary case), the outcome is exactly one
EMPTY_ROW error and nothing else; the duplicate-tracking state and the cache
are untouched. -/
theorem c5_amended (s : Store) (doctype : String) (headers : List String)
    (req uniq : List String) (pk : Option String) (fm : List (String × Field))
    (skip : Bool) (ty : Int) (idx : Nat) (row : List CellValue) (st : RowState)
    (c : Cache) (h : isEmptyRowDict (headers.zip row) = true) :
    processRow s doctype headers req uniq pk fm skip ty idx row st c =
      Except.ok ({ errors := [mkEmptyRowError doctype idx], shortCount := 1 }, st, c) := by
  simp [processRow, h]

/-- C5 witness: the amended theorem applied to a concrete all-placeholder
row. -/
theorem c5_witness :
    processRow failingStore ("S") ["Status"] [] [] Option.none
      (build_field_map [statusField] ["Status"]) false 2025 2 [CellValue.str ("NA")]
      (initRowState []) emptyCache =
    Except.ok ({ errors := [mkEmptyRowError ("S") 2], shortCount := 1 },
      initRowState [], emptyCache) :=
  c5_amended failingStore ("S") ["Status"] [] [] Option.none
    (build_field_map [statusField] ["Status"]) false 2025 2 [CellValue.str ("NA")]
    (initRowState []) emptyCache (by decide)

/-- C4 counterexample: the whole-row duplicate signature does NOT normalize
the lowercase placeholder na to the empty string (the claim asserts
normalization of NA and N/A in any letter case). -/
theorem c4_counterexample :
    signatureCell (CellValue.str ("na")) = "na" ∧ ("na" : String) ≠ "" :=
  ⟨rfl, by decide⟩

/-- C4 amended: the whole-row signature collapses only None, the empty
string and the exact uppercase spellings NA and N/A to the empty string,
leaving lowercase or mixed-case placeholders and whitespace-padded values
verbatim; primary-key duplicate detection normalizes by trimming only and
compares case-sensitively (Abc then abc is not flagged, while a later
whitespace-padded Abc is flagged DUPLICATE_PRIMARY_KEY). -/
theorem c4_amended :
    (signatureCell CellValue.none = "" ∧ signatureCell (CellValue.str ("")) = "" ∧
     signatureCell (CellValue.str ("NA")) = "" ∧
     signatureCell (CellValue.str ("N/A")) = "") ∧
    (signatureCell (CellValue.str ("na")) = "na" ∧
     signatureCell (CellValue.str ("n/a")) = "n/a" ∧
     signatureCell (CellValue.str ("Na")) = "Na" ∧
     signatureCell (CellValue.str (" NA ")) = " NA ") ∧
    rowsOutErrorLists (processRows failingStore ("P") ["ID"] [] []
        (get_primary_key [idField] ["ID"]) (build_field_map [idField] ["ID"])
        false 2025 noTrips 2 (initRowState []) emptyCache
        [[CellValue.str ("Abc")], [CellValue.str ("abc")], [CellValue.str (" Abc ")]])
      = [[], [], [mkDupPkError ("P") 4 ("ID") (CellValue.str (" Abc "))]] :=
  ⟨⟨rfl, rfl, rfl, rfl⟩, ⟨rfl, rfl, rfl, rfl⟩, rfl⟩

/-- C3: for a reference target whose record count exceeds the cache limit,
prefetching records only the size (no materialized id set), and resolving a
candidate id is decided by the direct existence query: a missing candidate
yields LINK_NOT_FOUND carrying zero suggestions (suggestions come only from
a materialized cache), an existing one resolves, and the cache is untouched
either way. -/
theorem c3_large_table_direct_query (s : Store) (df : Field) (d : String)
    (v : CellValue) (label : String) (idx : Nat) (n : Nat) (c : Cache)
    (hopt : df.options = some d) (hd : d ≠ "") (htr : truthy v = true)
    (hcount : s.countRecords d = Except.ok n) (hn : n > LINK_CACHE_LIMIT)
    (hnone : alookup c.linkCache d = Option.none) :
    alookup (prefetchOne s c d).linkSizes d = some n ∧
    alookup (prefetchOne s c d).linkCache d = Option.none ∧
    (s.existsRec d (sTrim (pyStr v)) = Except.ok false →
      validate_link_field s df v label idx false (prefetchOne s c d) =
        Except.ok (some (mkDtype idx label ("LINK_NOT_FOUND")
          (label ++ ": " ++ sq ++ pyStr v ++ sq ++ " not found in " ++ d) []),
          prefetchOne s c d)) ∧
    (s.existsRec d (sTrim (pyStr v)) = Except.ok true →
      validate_link_field s df v label idx false (prefetchOne s c d) =
        Except.ok (Option.none, prefetchOne s c d)) := by
  have hsz : alookup (prefetchOne s c d).linkSizes d = some n := by
    unfold prefetchOne
    rw [hcount]
    simp [hn, alookup_aput_same]
  have hcc : alookup (prefetchOne s c d).linkCache d = Option.none := by
    unfold prefetchOne
    rw [hcount]
    simp [hn, hnone]
  refine ⟨hsz, hcc, ?_, ?_⟩
  · intro hmiss
    have hsug : get_link_suggestions s d (sTrim (pyStr v)) 3 (prefetchOne s c d) =
        ([], prefetchOne s c d) := by
      unfold get_link_suggestions link_exists
      rw [hcc]
      simp only [Option.isNone_none, if_true, hd]
      rcases hdx : s.docTypeExists d with e | b
      · simp [hdx, hcc]
      · cases b
        · simp [hdx, hcc]
        · rw [hsz]
          rcases hex : s.existsRec d (sTrim ("__init__")) with e2 | b2 <;>
            simp [hdx, hsz, hn, hex, hcc]
    unfold validate_link_field
    simp only [htr, hopt, Bool.false_or, Bool.not_true, if_false, hd]
    rw [hmiss]
    rw [hcc]
    simp [hsug]
  · intro hhit
    unfold validate_link_field
    simp only [htr, hopt, Bool.false_or, Bool.not_true, if_false, hd]
    rw [hhit]
    simp

/-- C3 witness: the theorem applied to the Country fixture (6000 records,
candidate Narnia) with the post-prefetch cache state computed concretely. -/
theorem c3_witness :
    alookup (prefetchOne countryStore emptyCache ("Country")).linkSizes ("Country")
      = some 6000 ∧
    validate_link_field countryStore countryField (CellValue.str ("Narnia"))
        ("Country") 2 false (prefetchOne countryStore emptyCache ("Country")) =
      Except.ok (some (mkDtype 2 ("Country") ("LINK_NOT_FOUND")
        ("Country" ++ ": " ++ sq ++ "Narnia" ++ sq ++ " not found in " ++ "Country") []),
        prefetchOne countryStore emptyCache ("Country")) := by
  have h := c3_large_table_direct_query countryStore countryField ("Country")
    (CellValue.str ("Narnia")) ("Country") 2 6000 emptyCache (by decide) (by decide)
    (by decide) (by decide) (by decide) (by decide)
  exact ⟨h.1, h.2.2.1 (by decide)⟩

/-- C1 counterexample: in the timeout fixture (120 rows, the budget
expiring at the row-100 checkpoint, so 98 rows processed before the cutoff,
the first of which provably produces an INVALID_YEAR error), the recorded
sheet result reports total_rows 0 — not the 98 rows processed — and the
flattened error list is empty: the processed rows' errors are discarded, not
preserved. -/
theorem c1_counterexample :
    rowOutErrors (processRow tStore ("S") ["Year"]
        (required_columns_of [yearField] ["Year"]) [] Option.none
        (build_field_map [yearField] ["Year"]) false 2025 2 [CellValue.str ("abc")]
        (initRowState []) emptyCache) = [tRow2Error] ∧
    ((runBatch tStore [tSheet] false 2025 tTrips (fun _ => false)
        emptyCache).1.sheet_results.map (fun r => r.total_rows)) = [0] ∧
    (0 : Nat) ≠ 98 ∧
    (runBatch tStore [tSheet] false 2025 tTrips (fun _ => false)
        emptyCache).1.all_json_errors = [] ∧
    tRow2Error ∉ (runBatch tStore [tSheet] false 2025 tTrips (fun _ => false)
        emptyCache).1.all_json_errors := by
  refine ⟨rfl, rfl, by decide, rfl, ?_⟩
  intro hmem
  rw [show (runBatch tStore [tSheet] false 2025 tTrips (fun _ => false)
      emptyCache).1.all_json_errors = [] from rfl] at hmem
  cases hmem

/-- C1 amended: when the per-sheet time budget expires at a 100-row
checkpoint, the sheet's recorded result is the synthetic TIMEOUT_ERROR sheet
(success false, error_count 1, total_rows 0, one synthetic json error), and
the errors of the rows processed before the cutoff are discarded: nothing of
the sheet reaches the flattened error list, the error total or the row
total. -/
theorem c1_amended (s : Store) (sh : SheetInput) (skip : Bool) (ty : Int)
    (strips : Nat → Nat → Bool) (c : Cache)
    (hdt : check_doctype_exists s sh.name = true)
    (h : (process_sheet_with_validation s [sh] sh.name skip ty (strips 1) c).1 =
      SheetRun.timedOut) :
    (runBatch s [sh] skip ty strips (fun _ => false) c).1.sheet_results =
      [create_error_sheet sh.name ("TIMEOUT_ERROR")
        ("Sheet processing exceeded " ++ toString SHEET_TIMEOUT ++ "s timeout")] ∧
    (runBatch s [sh] skip ty strips (fun _ => false) c).1.all_json_errors = [] ∧
    (runBatch s [sh] skip ty strips (fun _ => false) c).1.total_rows = 0 ∧
    (runBatch s [sh] skip ty strips (fun _ => false) c).1.total_errors = 0 := by
  rcases hp : process_sheet_with_validation s [sh] sh.name skip ty (strips 1) c
    with ⟨run, c1⟩
  have hr : run = SheetRun.timedOut := by
    rw [hp] at h
    exact h
  subst hr
  simp [runBatch, batchLoop, hdt, hp]

/-- C1 witness: the amended theorem applied to the timeout fixture. -/
theorem c1_witness :
    (runBatch tStore [tSheet] false 2025 tTrips (fun _ => false)
      emptyCache).1.sheet_results =
      [create_error_sheet ("S") ("TIMEOUT_ERROR")
        ("Sheet processing exceeded " ++ toString SHEET_TIMEOUT ++ "s timeout")] ∧
    (runBatch tStore [tSheet] false 2025 tTrips (fun _ => false)
      emptyCache).1.all_json_errors = [] ∧
    (runBatch tStore [tSheet] false 2025 tTrips (fun _ => false)
      emptyCache).1.total_rows = 0 ∧
    (runBatch tStore [tSheet] false 2025 tTrips (fun _ => false)
      emptyCache).1.total_errors = 0 :=
  c1_amended tStore tSheet false 2025 tTrips emptyCache rfl rfl

/-- C9 counterexample: in the timeout fixture the batch report has
structure_valid true and an EMPTY flattened errors list even though the
timed-out sheet's result carries its synthetic error — contradicting the
claim that timed-out sheets' synthetic errors still appear in the flattened
errors list. -/
theorem c9_counterexample :
    (runBatch tStore [tSheet] false 2025 tTrips (fun _ => false)
      emptyCache).1.structure_valid = true ∧
    (runBatch tStore [tSheet] false 2025 tTrips (fun _ => false)
      emptyCache).1.all_json_errors = [] ∧
    (runBatch tStore [tSheet] false 2025 tTrips (fun _ => false)
      emptyCache).1.sheet_results =
      [create_error_sheet ("S") ("TIMEOUT_ERROR")
        ("Sheet processing exceeded " ++ toString SHEET_TIMEOUT ++ "s timeout")] ∧
    (create_error_sheet ("S") ("TIMEOUT_ERROR")
      ("Sheet processing exceeded " ++ toString SHEET_TIMEOUT ++ "s timeout")).json_errors
      ≠ [] := by
  refine ⟨rfl, rfl, rfl, by decide⟩

/-- C9 amended: structure_valid is true exactly when the aggregated total
error count is zero, and that aggregate excludes the synthetic errors of
unknown-entity-type and timed-out sheets; an unknown-entity-type sheet's
synthetic error still appears in the flattened errors list (so
structure_valid can be true with a non-empty errors list), but a timed-out
sheet's synthetic error appears only in its per-sheet result, not in the
flattened list. -/
theorem c9_amended (s : Store) (sheets : List SheetInput) (skip : Bool) (ty : Int)
    (strips : Nat → Nat → Bool) (otrips : Nat → Bool) (c : Cache) :
    ((runBatch s sheets skip ty strips otrips c).1.structure_valid =
      ((runBatch s sheets skip ty strips otrips c).1.total_errors == 0)) ∧
    ((runBatch tStore [uSheet] false 2025 tTrips (fun _ => false)
        emptyCache).1.total_errors = 0 ∧
     (runBatch tStore [uSheet] false 2025 tTrips (fun _ => false)
        emptyCache).1.all_json_errors =
       (create_error_sheet ("Unknown") ("DOCTYPE_NOT_FOUND")
         ("DocType " ++ sq ++ "Unknown" ++ sq ++ " not found in Frappe")).json_errors ∧
     (runBatch tStore [uSheet] false 2025 tTrips (fun _ => false)
        emptyCache).1.structure_valid = true ∧
     (runBatch tStore [uSheet] false 2025 tTrips (fun _ => false)
        emptyCache).1.all_json_errors ≠ []) ∧
    ((runBatch tStore [tSheet] false 2025 tTrips (fun _ => false)
        emptyCache).1.total_errors = 0 ∧
     (runBatch tStore [tSheet] false 2025 tTrips (fun _ => false)
        emptyCache).1.all_json_errors = []) := by
  refine ⟨?_, ⟨rfl, rfl, rfl, by decide⟩, rfl, rfl⟩
  rcases hb : batchLoop s sheets skip ty strips otrips 1 0 0 0 [] [] c sheets
    with ⟨v, e, r, res, aj, c1⟩
  simp [runBatch, hb]

/-- C10: link_exists is total — the embedding returns a plain boolean, every
raising backing-store query being caught — and it returns false whenever the
doctype or candidate id is empty, the doctype lookup raises or reports the
doctype missing, the count query of the lazy-population path raises, the
direct existence query of the large-table path raises, or the id-list query
of the materialization path raises. -/
theorem c10_link_exists_total (s : Store) (d : String) (name : String) (cs : Bool)
    (c : Cache) :
    ((d = "" ∨ name = "") → (link_exists s d name cs c).1 = false) ∧
    (s.docTypeExists d = Except.error () → (link_exists s d name cs c).1 = false) ∧
    (s.docTypeExists d = Except.ok false → (link_exists s d name cs c).1 = false) ∧
    (alookup c.linkSizes d = Option.none → alookup c.linkCache d = Option.none →
      s.countRecords d = Except.error () → (link_exists s d name cs c).1 = false) ∧
    (∀ n, alookup c.linkSizes d = some n → n > LINK_CACHE_LIMIT →
      s.existsRec d (sTrim name) = Except.error () →
      (link_exists s d name cs c).1 = false) ∧
    (∀ n, alookup c.linkSizes d = Option.none → alookup c.linkCache d = Option.none →
      s.countRecords d = Except.ok n → ¬(n > LINK_CACHE_LIMIT) →
      s.listIds d = Except.error () → (link_exists s d name cs c).1 = false) := by
  refine ⟨?_, ?_, ?_, ?_, ?_, ?_⟩
  · intro h
    rcases h with h | h <;> simp [link_exists, h]
  · intro h
    by_cases hd : d = ""
    · simp [link_exists, hd]
    · by_cases hn : name = ""
      · simp [link_exists, hn]
      · simp [link_exists, hd, hn, h]
  · intro h
    by_cases hd : d = ""
    · simp [link_exists, hd]
    · by_cases hn : name = ""
      · simp [link_exists, hn]
      · simp [link_exists, hd, hn, h]
  · intro h1 h2 h3
    by_cases hd : d = ""
    · simp [link_exists, hd]
    · by_cases hn : name = ""
      · simp [link_exists, hn]
      · rcases hx : s.docTypeExists d with e | b
        · simp [link_exists, hd, hn, hx]
        · cases b
          · simp [link_exists, hd, hn, hx]
          · simp [link_exists, hd, hn, hx, h1, h2, h3]
  · intro n h1 h2 h3
    by_cases hd : d = ""
    · simp [link_exists, hd]
    · by_cases hn : name = ""
      · simp [link_exists, hn]
      · rcases hx : s.docTypeExists d with e | b
        · simp [link_exists, hd, hn, hx]
        · cases b
          · simp [link_exists, hd, hn, hx]
          · simp [link_exists, hd, hn, hx, h1, h2, h3]
  · intro n h1 h2 h3 h4 h5
    by_cases hd : d = ""
    · simp [link_exists, hd]
    · by_cases hn : name = ""
      · simp [link_exists, hn]
      · rcases hx : s.docTypeExists d with e | b
        · simp [link_exists, hd, hn, hx]
        · cases b
          · simp [link_exists, hd, hn, hx]
          · simp [link_exists, hd, hn, hx, h1, h2, h3, h4, h5]

/-- C10 witness: link_exists returns false at a store whose every query
raises, both for an empty doctype and for a doctype whose existence check
raises. -/
theorem c10_witness :
    (link_exists failingStore ("") ("x") false emptyCache).1 = false ∧
    (link_exists failingStore ("D") ("x") false emptyCache).1 = false :=
  ⟨(c10_link_exists_total failingStore ("") ("x") false emptyCache).1 (Or.inl rfl),
   (c10_link_exists_total failingStore ("D") ("x") false emptyCache).2.1 rfl⟩

theorem reachable_empty (s : Store) : Reachable s emptyCache := by
  constructor <;> intro p hp <;> cases hp

theorem reachable_sizes_lookup (s : Store) (c : Cache) (d : String) (n : Nat)
    (h : Reachable s c) (hl : alookup c.linkSizes d = some n) :
    s.countRecords d = Except.ok n := by
  unfold alookup at hl
  rcases hf : c.linkSizes.find? (fun p => p.1 == d) with _ | p
  · rw [hf] at hl
    cases hl
  · rw [hf] at hl
    have hmem := List.mem_of_find?_eq_some hf
    have hkey := List.find?_some hf
    have hok := h.1 p hmem
    unfold sizeEntryOkB at hok
    have hcnt := of_decide_eq_true hok
    simp only [Option.map_some'] at hl
    injection hl with hl2
    rw [← (beq_iff_eq.mp hkey), ← hl2]
    exact hcnt

theorem reachable_cache_lookup (s : Store) (c : Cache) (d : String) (l : List String)
    (h : Reachable s c) (hl : alookup c.linkCache d = some l) :
    ∃ n, s.countRecords d = Except.ok n ∧ n ≤ LINK_CACHE_LIMIT ∧
      s.listIds d = Except.ok l := by
  unfold alookup at hl
  rcases hf : c.linkCache.find? (fun p => p.1 == d) with _ | p
  · rw [hf] at hl
    cases hl
  · rw [hf] at hl
    have hmem := List.mem_of_find?_eq_some hf
    have hkey := List.find?_some hf
    have hok := h.2 p hmem
    unfold cacheEntryOkB at hok
    simp only [Option.map_some'] at hl
    rcases hc : s.countRecords p.1 with e | n
    · rw [hc] at hok
      cases hok
    · rw [hc] at hok
      have hok2 := Bool.and_eq_true_iff.mp hok
      injection hl with hl2
      refine ⟨n, ?_, of_decide_eq_true hok2.1, ?_⟩
      · rw [← (beq_iff_eq.mp hkey)]
        exact hc
      · rw [← (beq_iff_eq.mp hkey), ← hl2]
        exact of_decide_eq_true hok2.2

theorem reachable_putSizes (s : Store) (c : Cache) (d : String) (n : Nat)
    (h : Reachable s c) (hc : s.countRecords d = Except.ok n) :
    Reachable s { c with linkSizes := aput c.linkSizes d n } := by
  constructor
  · intro p hp
    rcases List.mem_cons.mp hp with rfl | hp2
    · unfold sizeEntryOkB
      simpa using hc
    · exact h.1 p hp2
  · exact h.2

theorem reachable_putCache (s : Store) (c : Cache) (d : String) (n : Nat)
    (l : List String) (h : Reachable s c) (hc : s.countRecords d = Except.ok n)
    (hn : n ≤ LINK_CACHE_LIMIT) (hl : s.listIds d = Except.ok l) :
    Reachable s { c with linkCache := aput c.linkCache d l } := by
  constructor
  · exact h.1
  · intro p hp
    rcases List.mem_cons.mp hp with rfl | hp2
    · unfold cacheEntryOkB
      rw [hc]
      simp [hn, hl]
    · exact h.2 p hp2

theorem prefetchOne_reachable (s : Store) (c : Cache) (d : String)
    (h : Reachable s c) : Reachable s (prefetchOne s c d) := by
  unfold prefetchOne
  rcases hc : s.countRecords d with e | n
  · exact h
  · have h1 := reachable_putSizes s c d n h hc
    by_cases hn : n > LINK_CACHE_LIMIT
    · simpa [hn] using h1
    · rcases hl : s.listIds d with e2 | l
      · simpa [hn, hl] using h1
      · simp only [hn, if_false, hl]
        exact reachable_putCache s _ d n l h1 hc (by omega) hl

theorem prefetchOne_canon (s : Store) (c : Cache) (d : String) (h : Reachable s c) :
    alookup (prefetchOne s c d).linkSizes d = canonSizes s d ∧
    alookup (prefetchOne s c d).linkCache d = canonCache s d := by
  unfold prefetchOne canonSizes canonCache
  rcases hc : s.countRecords d with e | n
  · constructor
    · rcases hs : alookup c.linkSizes d with _ | n2
      · rfl
      · have := reachable_sizes_lookup s c d n2 h hs
        rw [hc] at this
        cases this
    · rcases hs : alookup c.linkCache d with _ | l
      · rfl
      · rcases reachable_cache_lookup s c d l h hs with ⟨n2, hn2, _, _⟩
        rw [hc] at hn2
        cases hn2
  · by_cases hn : n > LINK_CACHE_LIMIT
    · simp only [hn, if_true]
      constructor
      · exact alookup_aput_same c.linkSizes d n
      · rcases hs : alookup c.linkCache d with _ | l
        · rfl
        · rcases reachable_cache_lookup s c d l h hs with ⟨n2, hn2, hle, _⟩
          rw [hc] at hn2
          injection hn2 with hn2
          omega
    · simp only [hn, if_false]
      rcases hl : s.listIds d with e2 | l
      · constructor
        · exact alookup_aput_same c.linkSizes d n
        · rcases hs : alookup c.linkCache d with _ | l2
          · rfl
          · rcases reachable_cache_lookup s c d l2 h hs with ⟨n2, hn2, _, hl2⟩
            rw [hl] at hl2
            cases hl2
      · constructor
        · exact alookup_aput_same c.linkSizes d n
        · exact alookup_aput_same c.linkCache d l

theorem prefetchOne_other (s : Store) (c : Cache) (d d2 : String) (hne : d2 ≠ d) :
    alookup (prefetchOne s c d).linkSizes d2 = alookup c.linkSizes d2 ∧
    alookup (prefetchOne s c d).linkCache d2 = alookup c.linkCache d2 := by
  unfold prefetchOne
  rcases hc : s.countRecords d with e | n
  · exact ⟨rfl, rfl⟩
  · by_cases hn : n > LINK_CACHE_LIMIT
    · simp only [hn, if_true]
      refine ⟨alookup_aput_ne c.linkSizes d d2 n hne, ?_⟩
      try rfl
      try trivial
    · simp only [hn, if_false]
      rcases hl : s.listIds d with e2 | l
      · refine ⟨alookup_aput_ne c.linkSizes d d2 n hne, ?_⟩
        try rfl
        try trivial
      · exact ⟨alookup_aput_ne c.linkSizes d d2 n hne,
          alookup_aput_ne c.linkCache d d2 l hne⟩

theorem prefetchFold_reachable (s : Store) :
    ∀ (dts : List String) (c : Cache), Reachable s c →
      Reachable s (dts.foldl (prefetchOne s) c) := by
  intro dts
  induction dts with
  | nil => intro c h; exact h
  | cons d rest ih =>
      intro c h
      exact ih (prefetchOne s c d) (prefetchOne_reachable s c d h)

theorem prefetchFold_other (s : Store) :
    ∀ (dts : List String) (c : Cache) (d2 : String), d2 ∉ dts →
      alookup (dts.foldl (prefetchOne s) c).linkSizes d2 = alookup c.linkSizes d2 ∧
      alookup (dts.foldl (prefetchOne s) c).linkCache d2 = alookup c.linkCache d2 := by
  intro dts
  induction dts with
  | nil => intro c d2 _; exact ⟨rfl, rfl⟩
  | cons d rest ih =>
      intro c d2 hno
      have hne : d2 ≠ d := fun hh => hno (by rw [hh]; exact List.mem_cons_self d rest)
      have hrest : d2 ∉ rest := fun hh => hno (List.mem_cons_of_mem d hh)
      have h1 := ih (prefetchOne s c d) d2 hrest
      have h2 := prefetchOne_other s c d d2 hne
      simp only [List.foldl_cons]
      exact ⟨h1.1.trans h2.1, h1.2.trans h2.2⟩

theorem prefetchFold_canon (s : Store) :
    ∀ (dts : List String) (c : Cache), Reachable s c →
      ∀ d ∈ dts,
        alookup (dts.foldl (prefetchOne s) c).linkSizes d = canonSizes s d ∧
        alookup (dts.foldl (prefetchOne s) c).linkCache d = canonCache s d := by
  intro dts
  induction dts with
  | nil => intro c _ d hd; cases hd
  | cons d0 rest ih =>
      intro c h d hd
      simp only [List.foldl_cons]
      by_cases hin : d ∈ rest
      · exact ih (prefetchOne s c d0) (prefetchOne_reachable s c d0 h) d hin
      · have hde : d = d0 := by
          rcases List.mem_cons.mp hd with hh | hh
          · exact hh
          · exact absurd hh hin
        subst hde
        have hother := prefetchFold_other s rest (prefetchOne s c d) d hin
        have hcanon := prefetchOne_canon s c d h
        exact ⟨hother.1.trans hcanon.1, hother.2.trans hcanon.2⟩

theorem link_exists_char (s : Store) (d : String) (nm : String) (cs : Bool)
    (c : Cache) :
    link_exists s d nm cs c =
      ((linkExistsAbs s d nm cs (alookup c.linkSizes d) (alookup c.linkCache d)).1,
       applyCacheUpd c d
         (linkExistsAbs s d nm cs (alookup c.linkSizes d) (alookup c.linkCache d)).2) := by
  unfold link_exists linkExistsAbs
  repeat' (first | split | (simp_all [applyCacheUpd]))

theorem cacheAgree_putSizes (S : List String) (c1 c2 : Cache) (d : String) (n : Nat)
    (hag : CacheAgree S c1 c2) :
    CacheAgree S { c1 with linkSizes := aput c1.linkSizes d n }
      { c2 with linkSizes := aput c2.linkSizes d n } := by
  intro d2 hd2
  by_cases he : d2 = d
  · subst he
    exact ⟨(hag d2 hd2).1, by rw [alookup_aput_same, alookup_aput_same]⟩
  · refine ⟨(hag d2 hd2).1, ?_⟩
    rw [alookup_aput_ne c1.linkSizes d d2 n he, alookup_aput_ne c2.linkSizes d d2 n he]
    exact (hag d2 hd2).2

theorem cacheAgree_putCache (S : List String) (c1 c2 : Cache) (d : String)
    (l : List String) (hag : CacheAgree S c1 c2) :
    CacheAgree S { c1 with linkCache := aput c1.linkCache d l }
      { c2 with linkCache := aput c2.linkCache d l } := by
  intro d2 hd2
  by_cases he : d2 = d
  · subst he
    exact ⟨by rw [alookup_aput_same, alookup_aput_same], (hag d2 hd2).2⟩
  · refine ⟨?_, (hag d2 hd2).2⟩
    rw [alookup_aput_ne c1.linkCache d d2 l he, alookup_aput_ne c2.linkCache d d2 l he]
    exact (hag d2 hd2).1

theorem cacheAgree_upd (S : List String) (c1 c2 : Cache) (d : String)
    (u : Option (Sum Nat (List String))) (hag : CacheAgree S c1 c2) :
    CacheAgree S (applyCacheUpd c1 d u) (applyCacheUpd c2 d u) := by
  cases u with
  | none => exact hag
  | some v =>
      cases v with
      | inl n => exact cacheAgree_putSizes S c1 c2 d n hag
      | inr l => exact cacheAgree_putCache S c1 c2 d l hag

theorem reachable_applyUpd (s : Store) (c : Cache) (d : String)
    (u : Option (Sum Nat (List String))) (h : Reachable s c) (hu : UpdSound s d u) :
    Reachable s (applyCacheUpd c d u) := by
  cases u with
  | none => exact h
  | some v =>
      cases v with
      | inl n => exact reachable_putSizes s c d n h hu
      | inr l =>
          rcases hu with ⟨n, h1, h2, h3⟩
          exact reachable_putCache s c d n l h h1 h2 h3

theorem linkExistsAbs_upd_sound (s : Store) (d : String) (nm : String) (cs : Bool)
    (szs : Option Nat) (cch : Option (List String)) :
    UpdSound s d (linkExistsAbs s d nm cs szs cch).2 := by
  unfold linkExistsAbs
  repeat' split
  all_goals (first | trivial | skip)
  all_goals (dsimp only)
  all_goals (repeat' split)
  all_goals (first | trivial | skip)
  all_goals (simp_all [UpdSound])

theorem link_exists_cong (S : List String) (s : Store) (d : String) (nm : String)
    (cs : Bool) (c1 c2 : Cache) (hd : d ∈ S) (h1 : Reachable s c1)
    (h2 : Reachable s c2) (hag : CacheAgree S c1 c2) :
    (link_exists s d nm cs c1).1 = (link_exists s d nm cs c2).1 ∧
    CacheAgree S (link_exists s d nm cs c1).2 (link_exists s d nm cs c2).2 ∧
    Reachable s (link_exists s d nm cs c1).2 ∧
    Reachable s (link_exists s d nm cs c2).2 := by
  have e1 := link_exists_char s d nm cs c1
  have e2 := link_exists_char s d nm cs c2
  have ha := (hag d hd).1
  have hb := (hag d hd).2
  rw [e1, e2, ha, hb]
  refine ⟨rfl, ?_, ?_, ?_⟩
  · exact cacheAgree_upd S c1 c2 d _ hag
  · exact reachable_applyUpd s c1 d _ h1 (linkExistsAbs_upd_sound s d nm cs _ _)
  · exact reachable_applyUpd s c2 d _ h2 (linkExistsAbs_upd_sound s d nm cs _ _)

theorem get_link_suggestions_cong (S : List String) (s : Store) (d : String)
    (nm : String) (maxS : Nat) (c1 c2 : Cache) (hd : d ∈ S) (h1 : Reachable s c1)
    (h2 : Reachable s c2) (hag : CacheAgree S c1 c2) :
    (get_link_suggestions s d nm maxS c1).1 = (get_link_suggestions s d nm maxS c2).1 ∧
    CacheAgree S (get_link_suggestions s d nm maxS c1).2
      (get_link_suggestions s d nm maxS c2).2 ∧
    Reachable s (get_link_suggestions s d nm maxS c1).2 ∧
    Reachable s (get_link_suggestions s d nm maxS c2).2 := by
  unfold get_link_suggestions
  have ha := (hag d hd).1
  rcases hv : alookup c1.linkCache d with _ | cached
  · have hv2 : alookup c2.linkCache d = Option.none := by rw [← ha]; exact hv
    rcases link_exists_cong S s d ("__init__") false c1 c2 hd h1 h2 hag
      with ⟨hr, hag2, hre1, hre2⟩
    have hb := (hag2 d hd).1
    simp only [hv, hv2, Option.isNone_none, if_true]
    rw [hb]
    rcases hw : alookup (link_exists s d ("__init__") false c2).2.linkCache d
      with _ | cached2
    · refine ⟨?_, hag2, hre1, hre2⟩
      try rfl
      try trivial
    · refine ⟨?_, hag2, hre1, hre2⟩
      try rfl
      try trivial
  · have hv2 : alookup c2.linkCache d = some cached := by rw [← ha]; exact hv
    simp only [hv, hv2, Option.isNone_some, Bool.false_eq_true, if_false]
    refine ⟨?_, hag, h1, h2⟩
    try rfl
    try trivial

theorem pairOk_ok {aTy : Type} (S : List String) (s : Store) (a : aTy)
    (c1x c2x : Cache) (hag : CacheAgree S c1x c2x) (hr1 : Reachable s c1x)
    (hr2 : Reachable s c2x) :
    PairOk S s (Except.ok (a, c1x)) (Except.ok (a, c2x)) := by
  unfold PairOk
  exact ⟨rfl, hag, hr1, hr2⟩

theorem validate_link_field_cong (S : List String) (s : Store) (df : Field)
    (v : CellValue) (label : String) (idx : Nat) (skip : Bool) (c1 c2 : Cache)
    (h1 : Reachable s c1) (h2 : Reachable s c2) (hag : CacheAgree S c1 c2)
    (htgt : skip = false → ∀ d, df.options = some d → d ≠ "" → d ∈ S) :
    PairOk S s (validate_link_field s df v label idx skip c1)
      (validate_link_field s df v label idx skip c2) := by
  unfold PairOk validate_link_field
  by_cases h0 : (skip || !(truthy v)) = true
  · rw [if_pos h0, if_pos h0]
    exact ⟨rfl, hag, h1, h2⟩
  · rw [if_neg h0, if_neg h0]
    have hsk : skip = false := by
      rcases skip with _ | _
      · rfl
      · simp at h0
    rcases hopt : df.options with _ | o
    · dsimp only
      exact ⟨rfl, hag, h1, h2⟩
    · by_cases ho : o = ""
      · subst ho
        dsimp only
        exact ⟨rfl, hag, h1, h2⟩
      · have hdS : o ∈ S := htgt hsk o hopt ho
        dsimp only
        rw [if_neg ho]
        dsimp only
        rcases hex : s.existsRec o (sTrim (pyStr v)) with e | bb
        · dsimp only
        · cases bb
          · dsimp only
            have hcc := (hag o hdS).1
            rw [hcc]
            by_cases hhit : (match alookup c2.linkCache o with
              | some existing =>
                  existing.any (fun x => sLower (sTrim x) == sLower (sTrim (pyStr v)))
              | Option.none => false) = true
            · simp only [if_pos hhit]
              refine ⟨?_, hag, h1, h2⟩
              try rfl
              try trivial
            · simp only [if_neg hhit]
              rcases get_link_suggestions_cong S s o (sTrim (pyStr v)) 3 c1 c2 hdS
                h1 h2 hag with ⟨hs1, hs2, hs3, hs4⟩
              try dsimp only
              refine ⟨?_, hs2, hs3, hs4⟩
              rw [hs1]
          · dsimp only
            exact ⟨rfl, hag, h1, h2⟩

theorem alookup_entry_mem {aTy : Type} (l : List (String × aTy)) (k : String)
    (v : aTy) (h : alookup l k = some v) : (k, v) ∈ l := by
  unfold alookup at h
  rcases hf : l.find? (fun p => p.1 == k) with _ | p
  · rw [hf] at h
    cases h
  · rw [hf] at h
    have hm := List.mem_of_find?_eq_some hf
    have hp := List.find?_some hf
    have h2 : p.2 = v := by simpa using h
    have hk : p.1 = k := by simpa using hp
    have hpe : (k, v) = p := by
      rcases p with ⟨a, b⟩
      simp_all
    rw [hpe]
    exact hm

theorem pairOk_errL {aTy : Type} (S : List String) (s : Store) (e : Unit)
    (r : Except Unit (aTy × Cache)) (h : PairOk S s (Except.error e) r) :
    ∃ e2, r = Except.error e2 := by
  rcases r with e2 | ⟨a2, c2x⟩
  · exact ⟨e2, rfl⟩
  · exact h.elim

theorem pairOk_okL {aTy : Type} (S : List String) (s : Store) (a1 : aTy)
    (c1x : Cache) (r : Except Unit (aTy × Cache))
    (h : PairOk S s (Except.ok (a1, c1x)) r) :
    ∃ a2 c2x, r = Except.ok (a2, c2x) ∧ a1 = a2 ∧ CacheAgree S c1x c2x ∧
      Reachable s c1x ∧ Reachable s c2x := by
  rcases r with e2 | ⟨a2, c2x⟩
  · exact h.elim
  · exact ⟨a2, c2x, rfl, h.1, h.2.1, h.2.2.1, h.2.2.2⟩

set_option maxHeartbeats 2000000 in

theorem validateOneCell_cong (S : List String) (s : Store) (skip : Bool)
    (todayYear : Int) (fm : List (String × Field)) (rowIdx : Nat)
    (item : String × CellValue) (c1 c2 : Cache)
    (h1 : Reachable s c1) (h2 : Reachable s c2) (hag : CacheAgree S c1 c2)
    (htgt : skip = false → LinkTargetsIn fm S) :
    PairOk S s (validateOneCell s skip todayYear fm rowIdx item c1)
      (validateOneCell s skip todayYear fm rowIdx item c2) := by
  unfold validateOneCell
  dsimp only
  by_cases hb : ((if item.2 = CellValue.none then "" else sTrim (pyStr item.2)) == "" ||
      (if item.2 = CellValue.none then "" else sTrim (pyStr item.2)) == ("NA") ||
      (if item.2 = CellValue.none then "" else sTrim (pyStr item.2)) == ("N/A") ||
      (if item.2 = CellValue.none then "" else sTrim (pyStr item.2)) == ("na") ||
      (if item.2 = CellValue.none then "" else sTrim (pyStr item.2)) == ("n/a")) = true
  · simp only [if_pos hb]
    exact pairOk_ok S s _ c1 c2 hag h1 h2
  · simp only [if_neg hb]
    rcases hal : alookup fm (clean_header item.1) with _ | df
    · dsimp only
      by_cases hyb : (pyInStr ("year") (sLower item.1) &&
          decide (item.1.length < 15)) = true
      · simp only [if_pos hyb]
        dsimp only
        repeat' split
        all_goals
          first
            | exact pairOk_ok S s _ c1 c2 hag h1 h2
            | (dsimp only; exact pairOk_ok S s _ c1 c2 hag h1 h2)
            | simp_all
      · simp only [if_neg hyb]
        try dsimp only
        exact pairOk_ok S s _ c1 c2 hag h1 h2
    · dsimp only
      have hmem : (clean_header item.1, df) ∈ fm := alookup_entry_mem fm _ df hal
      by_cases hftL : (df.fieldtype == ("Link")) = true
      · have hft : df.fieldtype = "Link" := by simpa using hftL
        have htgt2 : skip = false → ∀ d, df.options = some d → d ≠ "" → d ∈ S :=
          fun hsk d hd hne => htgt hsk (clean_header item.1, df) hmem hft d hd hne
        have hcong := validate_link_field_cong S s df item.2 item.1 rowIdx skip
          c1 c2 h1 h2 hag htgt2
        simp only [if_pos hftL]
        split
        · rcases hyv : validate_year_value item.2 with _ | y
          · dsimp only
            exact pairOk_ok S s _ c1 c2 hag h1 h2
          · dsimp only
            rcases hA : validate_link_field s df item.2 item.1 rowIdx skip c1
              with e1 | ⟨o1, c1x⟩
            · rw [hA] at hcong
              obtain ⟨e2, hB⟩ := pairOk_errL S s e1 _ hcong
              rw [hB]
              dsimp only [PairOk]
            · rw [hA] at hcong
              obtain ⟨o2, c2x, hB, ho, hagx, hx1, hx2⟩ := pairOk_okL S s o1 c1x _ hcong
              rw [hB]
              subst ho
              rcases o1 with _ | le
              · dsimp only
                exact pairOk_ok S s _ c1x c2x hagx hx1 hx2
              · dsimp only
                exact pairOk_ok S s _ c1x c2x hagx hx1 hx2
        · rcases hA : validate_link_field s df item.2 item.1 rowIdx skip c1
            with e1 | ⟨o1, c1x⟩
          · rw [hA] at hcong
            obtain ⟨e2, hB⟩ := pairOk_errL S s e1 _ hcong
            rw [hB]
            dsimp only [PairOk]
          · rw [hA] at hcong
            obtain ⟨o2, c2x, hB, ho, hagx, hx1, hx2⟩ := pairOk_okL S s o1 c1x _ hcong
            rw [hB]
            subst ho
            rcases o1 with _ | le
            · dsimp only
              exact pairOk_ok S s _ c1x c2x hagx hx1 hx2
            · dsimp only
              exact pairOk_ok S s _ c1x c2x hagx hx1 hx2
      · simp only [if_neg hftL]
        repeat' split
        all_goals
          first
            | exact pairOk_ok S s _ c1 c2 hag h1 h2
            | (dsimp only; exact pairOk_ok S s _ c1 c2 hag h1 h2)
            | simp_all

theorem validate_datatypes_cong (S : List String) (s : Store) (skip : Bool)
    (todayYear : Int) (fm : List (String × Field)) (rowIdx : Nat)
    (htgt : skip = false → LinkTargetsIn fm S)
    (items : List (String × CellValue)) :
    ∀ (errs : List DtypeError) (c1 c2 : Cache),
      Reachable s c1 → Reachable s c2 → CacheAgree S c1 c2 →
      PairOk S s (validate_datatypes s skip todayYear fm rowIdx items errs c1)
        (validate_datatypes s skip todayYear fm rowIdx items errs c2) := by
  induction items with
  | nil =>
      intro errs c1 c2 h1 h2 hag
      unfold validate_datatypes
      exact pairOk_ok S s errs c1 c2 hag h1 h2
  | cons item rest ih =>
      intro errs c1 c2 h1 h2 hag
      unfold validate_datatypes
      have hcell := validateOneCell_cong S s skip todayYear fm rowIdx item c1 c2
        h1 h2 hag htgt
      rcases hA : validateOneCell s skip todayYear fm rowIdx item c1
        with e1 | ⟨es1, c1x⟩
      · rw [hA] at hcell
        obtain ⟨e2, hB⟩ := pairOk_errL S s e1 _ hcell
        rw [hB]
        dsimp only [PairOk]
      · rw [hA] at hcell
        obtain ⟨es2, c2x, hB, ho, hagx, hx1, hx2⟩ := pairOk_okL S s es1 c1x _ hcell
        rw [hB]
        subst ho
        try dsimp only
        exact ih (errs ++ es1) c1x c2x hx1 hx2 hagx

theorem tripleOk_ok {aTy bTy : Type} (S : List String) (s : Store) (a : aTy)
    (b : bTy) (c1x c2x : Cache) (hag : CacheAgree S c1x c2x)
    (hr1 : Reachable s c1x) (hr2 : Reachable s c2x) :
    TripleOk S s (Except.ok (a, b, c1x)) (Except.ok (a, b, c2x)) := by
  unfold TripleOk
  exact ⟨rfl, rfl, hag, hr1, hr2⟩

theorem tripleOk_errL {aTy bTy : Type} (S : List String) (s : Store) (e : Unit)
    (r : Except Unit (aTy × bTy × Cache)) (h : TripleOk S s (Except.error e) r) :
    ∃ e2, r = Except.error e2 := by
  rcases r with e2 | ⟨a2, b2, c2x⟩
  · exact ⟨e2, rfl⟩
  · exact h.elim

theorem tripleOk_okL {aTy bTy : Type} (S : List String) (s : Store) (a1 : aTy)
    (b1 : bTy) (c1x : Cache) (r : Except Unit (aTy × bTy × Cache))
    (h : TripleOk S s (Except.ok (a1, b1, c1x)) r) :
    ∃ a2 b2 c2x, r = Except.ok (a2, b2, c2x) ∧ a1 = a2 ∧ b1 = b2 ∧
      CacheAgree S c1x c2x ∧ Reachable s c1x ∧ Reachable s c2x := by
  rcases r with e2 | ⟨a2, b2, c2x⟩
  · exact h.elim
  · exact ⟨a2, b2, c2x, rfl, h.1, h.2.1, h.2.2.1, h.2.2.2.1, h.2.2.2.2⟩

theorem processRow_cong (S : List String) (s : Store) (doctype : String)
    (headers : List String) (requiredCols uniqueCols : List String)
    (primaryKey : Option String) (fieldMap : List (String × Field)) (skip : Bool)
    (todayYear : Int) (rowIdx : Nat) (row : List CellValue) (st : RowState)
    (c1 c2 : Cache) (h1 : Reachable s c1) (h2 : Reachable s c2)
    (hag : CacheAgree S c1 c2) (htgt : skip = false → LinkTargetsIn fieldMap S) :
    TripleOk S s
      (processRow s doctype headers requiredCols uniqueCols primaryKey
        fieldMap skip todayYear rowIdx row st c1)
      (processRow s doctype headers requiredCols uniqueCols primaryKey
        fieldMap skip todayYear rowIdx row st c2) := by
  unfold processRow
  dsimp only
  split
  · exact tripleOk_ok S s _ st c1 c2 hag h1 h2
  · have hdt := validate_datatypes_cong S s skip todayYear fieldMap rowIdx htgt
      (headers.zip row) [] c1 c2 h1 h2 hag
    rcases hA : validate_datatypes s skip todayYear fieldMap rowIdx
        (headers.zip row) [] c1 with e1 | ⟨dt1, c1x⟩
    · rw [hA] at hdt
      obtain ⟨e2, hB⟩ := pairOk_errL S s e1 _ hdt
      rw [hB]
      dsimp only [TripleOk]
    · rw [hA] at hdt
      obtain ⟨dt2, c2x, hB, ho, hagx, hx1, hx2⟩ := pairOk_okL S s dt1 c1x _ hdt
      rw [hB]
      subst ho
      try dsimp only
      exact tripleOk_ok S s _ _ c1x c2x hagx hx1 hx2

theorem processRows_cong (S : List String) (s : Store) (doctype : String)
    (headers : List String) (requiredCols uniqueCols : List String)
    (primaryKey : Option String) (fieldMap : List (String × Field)) (skip : Bool)
    (todayYear : Int) (trips : Nat → Bool)
    (htgt : skip = false → LinkTargetsIn fieldMap S) (rows : List (List CellValue)) :
    ∀ (idx : Nat) (st : RowState) (c1 c2 : Cache),
      Reachable s c1 → Reachable s c2 → CacheAgree S c1 c2 →
      RowsOk S s
        (processRows s doctype headers requiredCols uniqueCols primaryKey
          fieldMap skip todayYear trips idx st c1 rows)
        (processRows s doctype headers requiredCols uniqueCols primaryKey
          fieldMap skip todayYear trips idx st c2 rows) := by
  induction rows with
  | nil =>
      intro idx st c1 c2 h1 h2 hag
      unfold processRows
      exact ⟨rfl, rfl, hag, h1, h2⟩
  | cons row rest ih =>
      intro idx st c1 c2 h1 h2 hag
      unfold processRows
      split
      · exact ⟨rfl, rfl, hag, h1, h2⟩
      · have hrow := processRow_cong S s doctype headers requiredCols uniqueCols
          primaryKey fieldMap skip todayYear idx row st c1 c2 h1 h2 hag htgt
        rcases hA : processRow s doctype headers requiredCols uniqueCols
            primaryKey fieldMap skip todayYear idx row st c1
          with e1 | ⟨out1, st1, c1x⟩
        · rw [hA] at hrow
          obtain ⟨e2, hB⟩ := tripleOk_errL S s e1 _ hrow
          rw [hB]
          exact ⟨rfl, rfl, hag, h1, h2⟩
        · rw [hA] at hrow
          obtain ⟨out2, st2, c2x, hB, ho, hst, hagx, hx1, hx2⟩ :=
            tripleOk_okL S s out1 st1 c1x _ hrow
          rw [hB]
          subst ho
          subst hst
          dsimp only
          have ihr := ih (idx + 1) st1 c1x c2x hx1 hx2 hagx
          rcases hC : processRows s doctype headers requiredCols uniqueCols
              primaryKey fieldMap skip todayYear trips (idx + 1) st1 c1x rest
            with ⟨ro1, stA, cA⟩
          rcases hD : processRows s doctype headers requiredCols uniqueCols
              primaryKey fieldMap skip todayYear trips (idx + 1) st1 c2x rest
            with ⟨ro2, stB, cB⟩
          rw [hC, hD] at ihr
          obtain ⟨hro, hstAB, hagAB, hrA, hrB⟩ := ihr
          dsimp only at hro hstAB hagAB hrA hrB
          subst hro
          subst hstAB
          rcases ro1 with outs | outs | outs
          · exact ⟨rfl, rfl, hagAB, hrA, hrB⟩
          · exact ⟨rfl, rfl, hagAB, hrA, hrB⟩
          · exact ⟨rfl, rfl, hagAB, hrA, hrB⟩

theorem foldl_induct {aTy bTy : Type} (l : List aTy) (step : bTy → aTy → bTy)
    (Q : bTy → Prop) :
    ∀ (init : bTy), Q init → (∀ b, ∀ a ∈ l, Q b → Q (step b a)) →
      Q (l.foldl step init) := by
  induction l with
  | nil =>
      intro init h _
      exact h
  | cons a rest ih =>
      intro init h hstep
      simp only [List.foldl_cons]
      exact ih (step init a) (hstep init a (List.mem_cons_self a rest) h)
        (fun b a2 ha2 hb => hstep b a2 (List.mem_cons_of_mem a ha2) hb)

theorem build_field_map_link_targets (meta : List Field) (headers : List String) :
    LinkTargetsIn (build_field_map meta headers) (linkDoctypes meta) := by
  unfold build_field_map
  dsimp only
  have hprimary : ∀ p ∈ meta.foldl (fun fm df =>
      let fm1 :=
        match df.label with
        | some l => if l ≠ "" then aput fm (clean_header l) df else fm
        | Option.none => fm
      match df.fieldname with
      | some fn =>
          if fn ≠ "" && (alookup fm1 (clean_header fn)).isNone then
            aput fm1 (clean_header fn) df
          else fm1
      | Option.none => fm1) [], p.2 ∈ meta := by
    refine foldl_induct meta _ (fun fm : List (String × Field) => ∀ p ∈ fm, p.2 ∈ meta) [] ?_ ?_
    · intro p hp
      cases hp
    · intro fm df hdf hQ p hp
      dsimp only at hp
      repeat' split at hp
      all_goals
        try simp only [aput, List.mem_cons] at hp
      all_goals
        first
          | (rcases hp with hp | hp
             · rw [hp]
               exact hdf
             · exact hQ p hp)
          | (rcases hp with hp | hp | hp
             · rw [hp]
               exact hdf
             · rw [hp]
               exact hdf
             · exact hQ p hp)
          | exact hQ p hp
  split
  · intro p hp hft d hd hne
    exfalso
    revert hp
    refine foldl_induct headers _ (fun fm : List (String × Field) => p ∈ fm → False) [] ?_ ?_
    · intro hp
      cases hp
    · intro fm h2 hh2 hQ hp
      simp only [aput, List.mem_cons] at hp
      rcases hp with hp | hp
      · rw [hp] at hft
        dsimp only at hft
        repeat' split at hft
        all_goals simp_all
      · exact hQ hp
  · intro p hp hft d hd hne
    have hm := hprimary p hp
    unfold linkDoctypes
    simp only [List.mem_filterMap]
    refine ⟨p.2, hm, ?_⟩
    simp [hft, hd, hne]

set_option maxHeartbeats 2000000 in

theorem process_sheet_cong (s : Store) (sheets : List SheetInput) (doctype : String)
    (skip : Bool) (todayYear : Int) (trips : Nat → Bool) (c1 c2 : Cache)
    (h1 : Reachable s c1) (h2 : Reachable s c2) :
    (process_sheet_with_validation s sheets doctype skip todayYear trips c1).1 =
      (process_sheet_with_validation s sheets doctype skip todayYear trips c2).1 ∧
    Reachable s (process_sheet_with_validation s sheets doctype skip todayYear trips c1).2 ∧
    Reachable s (process_sheet_with_validation s sheets doctype skip todayYear trips c2).2 := by
  unfold process_sheet_with_validation
  dsimp only
  rcases hsf : (sheets.reverse).find?
      (fun sh => normSheetName sh.name == normSheetName doctype) with _ | sheetInput
  · rw [hsf]
    exact ⟨rfl, h1, h2⟩
  · rw [hsf]
    dsimp only
    rcases hhr : sheetInput.headerRow with _ | headerRow
    · try rw [hhr]
      exact ⟨rfl, h1, h2⟩
    · try rw [hhr]
      try dsimp only
      split
      · exact ⟨rfl, h1, h2⟩
      · split
        · exact ⟨rfl, h1, h2⟩
        · split
          · exact ⟨rfl, h1, h2⟩
          · rcases hgm : s.getMeta doctype with e | meta
            · try rw [hgm]
              exact ⟨rfl, h1, h2⟩
            · try rw [hgm]
              try dsimp only
              by_cases hskip : skip = true
              · simp only [if_pos hskip]
                have htgt2 : skip = false → LinkTargetsIn
                    (build_field_map meta
                      ((headerRow.filter truthy).map (fun h => sTrim (pyStr h)))) [] :=
                  fun hsk => False.elim (by rw [hsk] at hskip; exact absurd hskip (by simp))
                have hagE : CacheAgree [] c1 c2 := fun d hd => absurd hd (List.not_mem_nil d)
                split
                · exact ⟨rfl, h1, h2⟩
                · have hrows := processRows_cong [] s doctype
                    ((headerRow.filter truthy).map (fun h => sTrim (pyStr h)))
                    (required_columns_of meta
                      ((headerRow.filter truthy).map (fun h => sTrim (pyStr h))))
                    (get_unique_columns meta
                      ((headerRow.filter truthy).map (fun h => sTrim (pyStr h))))
                    (get_primary_key meta
                      ((headerRow.filter truthy).map (fun h => sTrim (pyStr h))))
                    (build_field_map meta
                      ((headerRow.filter truthy).map (fun h => sTrim (pyStr h))))
                    skip todayYear trips htgt2 sheetInput.rows 2
                    (initRowState (get_unique_columns meta
                      ((headerRow.filter truthy).map (fun h => sTrim (pyStr h)))))
                    c1 c2 h1 h2 hagE
                  rcases hC : processRows s doctype
                      ((headerRow.filter truthy).map (fun h => sTrim (pyStr h)))
                      (required_columns_of meta
                        ((headerRow.filter truthy).map (fun h => sTrim (pyStr h))))
                      (get_unique_columns meta
                        ((headerRow.filter truthy).map (fun h => sTrim (pyStr h))))
                      (get_primary_key meta
                        ((headerRow.filter truthy).map (fun h => sTrim (pyStr h))))
                      (build_field_map meta
                        ((headerRow.filter truthy).map (fun h => sTrim (pyStr h))))
                      skip todayYear trips 2
                      (initRowState (get_unique_columns meta
                        ((headerRow.filter truthy).map (fun h => sTrim (pyStr h)))))
                      c1 sheetInput.rows with ⟨ro1, stA, cA⟩
                  rcases hD : processRows s doctype
                      ((headerRow.filter truthy).map (fun h => sTrim (pyStr h)))
                      (required_columns_of meta
                        ((headerRow.filter truthy).map (fun h => sTrim (pyStr h))))
                      (get_unique_columns meta
                        ((headerRow.filter truthy).map (fun h => sTrim (pyStr h))))
                      (get_primary_key meta
                        ((headerRow.filter truthy).map (fun h => sTrim (pyStr h))))
                      (build_field_map meta
                        ((headerRow.filter truthy).map (fun h => sTrim (pyStr h))))
                      skip todayYear trips 2
                      (initRowState (get_unique_columns meta
                        ((headerRow.filter truthy).map (fun h => sTrim (pyStr h)))))
                      c2 sheetInput.rows with ⟨ro2, stB, cB⟩
                  rw [hC, hD] at hrows
                  obtain ⟨hro, hst, hagAB, hrA, hrB⟩ := hrows
                  dsimp only at hro hst hagAB hrA hrB
                  subst hro
                  rcases ro1 with outs | outs | outs
                  · exact ⟨rfl, hrA, hrB⟩
                  · exact ⟨rfl, hrA, hrB⟩
                  · exact ⟨rfl, hrA, hrB⟩
              · simp only [if_neg hskip]
                have hsk : skip = false := by
                  rcases skip with _ | _
                  · rfl
                  · exact absurd rfl hskip
                have htgt2 : skip = false → LinkTargetsIn
                    (build_field_map meta
                      ((headerRow.filter truthy).map (fun h => sTrim (pyStr h))))
                    (linkDoctypes meta) :=
                  fun _ => build_field_map_link_targets meta _
                have hP1 : Reachable s (prefetch_link_caches s meta c1) := by
                  unfold prefetch_link_caches
                  exact prefetchFold_reachable s (linkDoctypes meta) c1 h1
                have hP2 : Reachable s (prefetch_link_caches s meta c2) := by
                  unfold prefetch_link_caches
                  exact prefetchFold_reachable s (linkDoctypes meta) c2 h2
                have hagP : CacheAgree (linkDoctypes meta)
                    (prefetch_link_caches s meta c1) (prefetch_link_caches s meta c2) := by
                  intro d hd
                  have hc1 := prefetchFold_canon s (linkDoctypes meta) c1 h1 d hd
                  have hc2 := prefetchFold_canon s (linkDoctypes meta) c2 h2 d hd
                  unfold prefetch_link_caches
                  exact ⟨hc1.2.trans hc2.2.symm, hc1.1.trans hc2.1.symm⟩
                split
                · exact ⟨rfl, hP1, hP2⟩
                · have hrows := processRows_cong (linkDoctypes meta) s doctype
                    ((headerRow.filter truthy).map (fun h => sTrim (pyStr h)))
                    (required_columns_of meta
                      ((headerRow.filter truthy).map (fun h => sTrim (pyStr h))))
                    (get_unique_columns meta
                      ((headerRow.filter truthy).map (fun h => sTrim (pyStr h))))
                    (get_primary_key meta
                      ((headerRow.filter truthy).map (fun h => sTrim (pyStr h))))
                    (build_field_map meta
                      ((headerRow.filter truthy).map (fun h => sTrim (pyStr h))))
                    skip todayYear trips htgt2 sheetInput.rows 2
                    (initRowState (get_unique_columns meta
                      ((headerRow.filter truthy).map (fun h => sTrim (pyStr h)))))
                    (prefetch_link_caches s meta c1) (prefetch_link_caches s meta c2)
                    hP1 hP2 hagP
                  rcases hC : processRows s doctype
                      ((headerRow.filter truthy).map (fun h => sTrim (pyStr h)))
                      (required_columns_of meta
                        ((headerRow.filter truthy).map (fun h => sTrim (pyStr h))))
                      (get_unique_columns meta
                        ((headerRow.filter truthy).map (fun h => sTrim (pyStr h))))
                      (get_primary_key meta
                        ((headerRow.filter truthy).map (fun h => sTrim (pyStr h))))
                      (build_field_map meta
                        ((headerRow.filter truthy).map (fun h => sTrim (pyStr h))))
                      skip todayYear trips 2
                      (initRowState (get_unique_columns meta
                        ((headerRow.filter truthy).map (fun h => sTrim (pyStr h)))))
                      (prefetch_link_caches s meta c1) sheetInput.rows
                    with ⟨ro1, stA, cA⟩
                  rcases hD : processRows s doctype
                      ((headerRow.filter truthy).map (fun h => sTrim (pyStr h)))
                      (required_columns_of meta
                        ((headerRow.filter truthy).map (fun h => sTrim (pyStr h))))
                      (get_unique_columns meta
                        ((headerRow.filter truthy).map (fun h => sTrim (pyStr h))))
                      (get_primary_key meta
                        ((headerRow.filter truthy).map (fun h => sTrim (pyStr h))))
                      (build_field_map meta
                        ((headerRow.filter truthy).map (fun h => sTrim (pyStr h))))
                      skip todayYear trips 2
                      (initRowState (get_unique_columns meta
                        ((headerRow.filter truthy).map (fun h => sTrim (pyStr h)))))
                      (prefetch_link_caches s meta c2) sheetInput.rows
                    with ⟨ro2, stB, cB⟩
                  rw [hC, hD] at hrows
                  obtain ⟨hro, hst, hagAB, hrA, hrB⟩ := hrows
                  dsimp only at hro hst hagAB hrA hrB
                  subst hro
                  rcases ro1 with outs | outs | outs
                  · exact ⟨rfl, hrA, hrB⟩
                  · exact ⟨rfl, hrA, hrB⟩
                  · exact ⟨rfl, hrA, hrB⟩

theorem batchLoop_cong (s : Store) (allSheets : List SheetInput) (skip : Bool)
    (todayYear : Int) (sheetTrips : Nat → Nat → Bool) (overallTrips : Nat → Bool)
    (rest : List SheetInput) :
    ∀ (sheetIdx validated errs rows : Nat) (results : List SheetResult)
      (allJson : List JsonError) (c1 c2 : Cache),
      Reachable s c1 → Reachable s c2 →
      BatchOk s
        (batchLoop s allSheets skip todayYear sheetTrips overallTrips
          sheetIdx validated errs rows results allJson c1 rest)
        (batchLoop s allSheets skip todayYear sheetTrips overallTrips
          sheetIdx validated errs rows results allJson c2 rest) := by
  induction rest with
  | nil =>
      intro sheetIdx validated errs rows results allJson c1 c2 h1 h2
      unfold batchLoop
      exact ⟨rfl, rfl, rfl, rfl, rfl, h1, h2⟩
  | cons sh rest2 ih =>
      intro sheetIdx validated errs rows results allJson c1 c2 h1 h2
      unfold batchLoop
      split
      · exact ⟨rfl, rfl, rfl, rfl, rfl, h1, h2⟩
      · split
        · exact ih _ _ _ _ _ _ c1 c2 h1 h2
        · have hsh := process_sheet_cong s allSheets sh.name skip todayYear
            (sheetTrips sheetIdx) c1 c2 h1 h2
          rcases hA : process_sheet_with_validation s allSheets sh.name skip
              todayYear (sheetTrips sheetIdx) c1 with ⟨run1, c1x⟩
          rcases hB : process_sheet_with_validation s allSheets sh.name skip
              todayYear (sheetTrips sheetIdx) c2 with ⟨run2, c2x⟩
          rw [hA, hB] at hsh
          obtain ⟨hr, hx1, hx2⟩ := hsh
          dsimp only at hr hx1 hx2
          subst hr
          rcases run1 with r | _
          · exact ih _ _ _ _ _ _ c1x c2x hx1 hx2
          · exact ih _ _ _ _ _ _ c1x c2x hx1 hx2

/-- C8: with an unchanged backing store, the structured batch output is
independent of the starting state of the process-wide link cache, for every
cache state reachable from runs against that same store (the empty cache
included); and immediately re-running the batch from the cache the first
run left behind reproduces the first run's output exactly. -/
theorem c8_cache_independent (s : Store) (sheets : List SheetInput) (skip : Bool)
    (todayYear : Int) (sheetTrips : Nat → Nat → Bool) (overallTrips : Nat → Bool)
    (c1 c2 : Cache) (h1 : Reachable s c1) (h2 : Reachable s c2) :
    (runBatch s sheets skip todayYear sheetTrips overallTrips c1).1 =
      (runBatch s sheets skip todayYear sheetTrips overallTrips c2).1 ∧
    (runBatch s sheets skip todayYear sheetTrips overallTrips
        (runBatch s sheets skip todayYear sheetTrips overallTrips c1).2).1 =
      (runBatch s sheets skip todayYear sheetTrips overallTrips c1).1 := by
  have main : ∀ (d1 d2 : Cache), Reachable s d1 → Reachable s d2 →
      (runBatch s sheets skip todayYear sheetTrips overallTrips d1).1 =
        (runBatch s sheets skip todayYear sheetTrips overallTrips d2).1 ∧
      Reachable s (runBatch s sheets skip todayYear sheetTrips overallTrips d1).2 := by
    intro d1 d2 hd1 hd2
    unfold runBatch
    have hb := batchLoop_cong s sheets skip todayYear sheetTrips overallTrips sheets
      1 0 0 0 [] [] d1 d2 hd1 hd2
    rcases hA : batchLoop s sheets skip todayYear sheetTrips overallTrips
        1 0 0 0 [] [] d1 sheets with ⟨v1, e1, r1, res1, aj1, cx1⟩
    rcases hB : batchLoop s sheets skip todayYear sheetTrips overallTrips
        1 0 0 0 [] [] d2 sheets with ⟨v2, e2, r2, res2, aj2, cx2⟩
    rw [hA, hB] at hb
    obtain ⟨hv, he, hr, hres, haj, hcx1, hcx2⟩ := hb
    dsimp only at hv he hr hres haj hcx1 hcx2
    subst hv
    subst he
    subst hr
    subst hres
    subst haj
    exact ⟨rfl, hcx1⟩
  refine ⟨(main c1 c2 h1 h2).1, ?_⟩
  exact (main (runBatch s sheets skip todayYear sheetTrips overallTrips c1).2 c1
    (main c1 c1 h1 h1).2 h1).1

theorem c8_witness :
    ((runBatch cityStore [citySheet] false 2025 (fun _ _ => false) (fun _ => false)
        cityCache).1 =
      (runBatch cityStore [citySheet] false 2025 (fun _ _ => false) (fun _ => false)
        emptyCache).1 ∧
    (runBatch cityStore [citySheet] false 2025 (fun _ _ => false) (fun _ => false)
        (runBatch cityStore [citySheet] false 2025 (fun _ _ => false) (fun _ => false)
          cityCache).2).1 =
      (runBatch cityStore [citySheet] false 2025 (fun _ _ => false) (fun _ => false)
        cityCache).1) :=
  c8_cache_independent cityStore [citySheet] false 2025 (fun _ _ => false)
    (fun _ => false) cityCache emptyCache ⟨by decide, by decide⟩ ⟨by decide, by decide⟩

end LoopValidate
